import Mathlib

/-!
Verification of the ZFS snapshot replication script (`zfs/replica.py`).

The script is shallowly embedded: the pure string processing of each
function is translated directly, and the effectful control flow of `main`
is modelled as a deterministic function of the command-line arguments, the
current UTC time, the state of the two ZFS pools, and a schedule giving
the exit code of every external `zfs` invocation (the environment's
choice).  Machine integers do not occur; exit codes are plain `Int`.
-/

/-! ## Python string primitives

Python compares strings lexicographically by code point; `list.sort()` is
a stable ascending sort with respect to that order.  `str.split(sep)`
splits on every occurrence of `sep` without collapsing, and
`str.splitlines()` splits on newlines without producing a trailing empty
entry.  These are modelled structurally on `List Char`.
-/

/-- Python's `<` on strings, on the underlying character lists:
lexicographic by code point, a proper prefix being smaller. -/
def pyLtCL : List Char → List Char → Bool
  | _, [] => false
  | [], _ :: _ => true
  | a :: as, b :: bs => if a < b then true else if a = b then pyLtCL as bs else false

/-- Python's `<=` on strings: `a <= b` iff `¬ (b < a)`. -/
def pyLe (a b : String) : Prop := pyLtCL b.data a.data = false

instance pyLe.dec : DecidableRel pyLe := fun a b =>
  inferInstanceAs (Decidable (pyLtCL b.data a.data = false))

/-- Model of Python's `list.sort()` on strings: a stable ascending sort by
code-point order.  Any two stable sorts agree, so insertion sort is an
exact model of Timsort's result. -/
def sortPy (l : List String) : List String := List.insertionSort pyLe l

/-- Python's `str.split(sep)` on character lists: split at every
occurrence of `sep`, keeping empty chunks. -/
def splitOnCharL (sep : Char) : List Char → List (List Char)
  | [] => [[]]
  | c :: rest =>
    match splitOnCharL sep rest with
    | [] => [[c]]
    | h :: t => if c = sep then [] :: h :: t else (c :: h) :: t

/-- Python's `str.split(sep)` lifted to `String`. -/
def pySplit (sep : Char) (s : String) : List String :=
  (splitOnCharL sep s.data).map (fun l => ⟨l⟩)

/-- Python's `str.splitlines()`: split on newlines, with no trailing empty
entry.  (The source's inputs never contain `\r`-style separators, so only
`\n` is modelled.) -/
def pySplitlines (s : String) : List String :=
  if s = "" then []
  else
    let parts := pySplit '\n' s
    if parts.getLast? = some "" then parts.dropLast else parts

/-- Joins lines the way the lines of a command's stdout are joined.  A
trailing newline on real output only adds a trailing empty entry that
`splitlines` drops, so it is omitted. -/
def joinLines : List String → String
  | [] => ""
  | [l] => l
  | l :: ls => l ++ "\n" ++ joinLines ls

/-! ## The managed-snapshot pattern

`snapshots` filters `zfs list` lines with
`re.compile("@replica:\d{4}-\d{2}-\d{2}-\d{2}:\d{2}")` and `prog.search`,
i.e. a substring search.  `\d` is modelled as an ASCII digit (the
script's inputs are ASCII). -/

/-- Does `\d{4}-\d{2}-\d{2}-\d{2}:\d{2}` match a prefix of the list? -/
def tsMatch : List Char → Bool
  | y1 :: y2 :: y3 :: y4 :: '-' :: o1 :: o2 :: '-' :: d1 :: d2 :: '-' :: h1 :: h2 :: ':' :: n1 :: n2 :: _ =>
    y1.isDigit && y2.isDigit && y3.isDigit && y4.isDigit && o1.isDigit && o2.isDigit &&
    d1.isDigit && d2.isDigit && h1.isDigit && h2.isDigit && n1.isDigit && n2.isDigit
  | _ => false

/-- Does the full pattern `@replica:\d{4}-\d{2}-\d{2}-\d{2}:\d{2}` match a
prefix of the list? -/
def patAt : List Char → Bool
  | '@' :: 'r' :: 'e' :: 'p' :: 'l' :: 'i' :: 'c' :: 'a' :: ':' :: rest => tsMatch rest
  | _ => false

/-- Model of `re.search`: does the pattern match anywhere in the string? -/
def reSearch : List Char → Bool
  | [] => false
  | c :: rest => patAt (c :: rest) || reSearch rest

/-- The expression `snap.split('\t')[0]` — the snapshot-name field of a `zfs list -H` line. -/
def tabField (s : String) : String := (pySplit '\t' s).headD ""

/-- The expression `snap.split('@')[1]` — the part of the snapshot name after the `@`. -/
def atField (s : String) : String := (pySplit '@' s).getD 1 ""

/-- The pure core of `snapshots(fs)` (replica.py lines 120-130), applied to
the lines of `zfs list -t snapshot -Hr` output: keep the lines matched by
the pattern search, take the name field, take the part after `@`, sort. -/
def snapshotsLines (lines : List String) : List String :=
  let snaps := lines.filter (fun snap => reSearch snap.data)
  let snaps := snaps.map tabField
  let snaps := snaps.map atField
  sortPy snaps

/-- An `OSError(errno, msg)` as raised by the script; `errno.EIO = 5`. -/
structure OSErr where
  errnoVal : Int
  msg : String
deriving DecidableEq

/-- Model of `snapshots(fs)` (replica.py lines 104-130) at its process boundary:
given the exit code, stdout and stderr of `zfs list -t snapshot -Hr fs`,
either raise `OSError(EIO, "zfs list returned <code>")` — the stderr text
is captured but ignored (the source's own comment: "Ignore the stderr
output and only read the stdout output.") — or return the sorted managed
tags. -/
def snapshots (exitCode : Int) (stdout stderr : String) : Except OSErr (List String) :=
  if exitCode ≠ 0 then .error ⟨5, "zfs list returned " ++ toString exitCode⟩
  else .ok (snapshotsLines (pySplitlines stdout))

/-! ## Timestamps and `mksnapshot` -/

/-- A UTC timestamp at minute granularity, as consumed by
`strftime("%Y-%m-%d-%H:%M")`. -/
structure DT where
  year : Nat
  month : Nat
  day : Nat
  hour : Nat
  minute : Nat
deriving DecidableEq

/-- What `datetime.utcnow()` can produce: epoch-based UTC times, so the
year has four digits and every other field is in its calendar range. -/
def DT.valid (t : DT) : Prop :=
  1970 ≤ t.year ∧ t.year ≤ 9999 ∧ 1 ≤ t.month ∧ t.month ≤ 12 ∧
  1 ≤ t.day ∧ t.day ≤ 31 ∧ t.hour ≤ 23 ∧ t.minute ≤ 59

instance DT.valid.inst (t : DT) : Decidable t.valid :=
  inferInstanceAs (Decidable (1970 ≤ t.year ∧ t.year ≤ 9999 ∧ 1 ≤ t.month ∧ t.month ≤ 12 ∧
    1 ≤ t.day ∧ t.day ≤ 31 ∧ t.hour ≤ 23 ∧ t.minute ≤ 59))

/-- Two-digit zero-padded decimal, as produced by `%m`, `%d`, `%H`, `%M`. -/
def pad2 (n : Nat) : List Char := [Nat.digitChar (n / 10 % 10), Nat.digitChar (n % 10)]

/-- Four-digit decimal, as produced by `%Y` for epoch-based years. -/
def pad4 (n : Nat) : List Char := pad2 (n / 100) ++ pad2 (n % 100)

/-- The tag `today.strftime("%Y-%m-%d-%H:%M")` (replica.py line 89). -/
def strftimeTag (t : DT) : String :=
  ⟨pad4 t.year ++ '-' :: (pad2 t.month ++ '-' :: (pad2 t.day ++ '-' :: (pad2 t.hour ++ ':' :: pad2 t.minute)))⟩

/-- Chronological order of two timestamps: by year, then month, day, hour,
minute. -/
def chronLE (a b : DT) : Prop :=
  a.year < b.year ∨ (a.year = b.year ∧ (a.month < b.month ∨ (a.month = b.month ∧
    (a.day < b.day ∨ (a.day = b.day ∧ (a.hour < b.hour ∨ (a.hour = b.hour ∧
      a.minute ≤ b.minute)))))))

/-- Numeric encoding of a timestamp; on valid timestamps it orders exactly
like `chronLE`. -/
def DT.key (t : DT) : Nat :=
  (((t.year * 100 + t.month) * 100 + t.day) * 100 + t.hour) * 100 + t.minute

/-! ## The piped transfers -/

/-- Python's `rc != 0` where `rc` is a `Popen.returncode` (`None` until
the process has been waited on): `None != 0` is `True`. -/
def rcNe0 : Option Int → Bool
  | none => true
  | some c => c != 0

/-- Python's `"{}".format(returncode)`. -/
def rcStr : Option Int → String
  | none => "None"
  | some c => toString c

/-- The exit-code checks of `sendsnapshot` (replica.py lines 148-153) on
the `returncode` fields of the two children at the check point.  Note
that BOTH guards test `send.returncode is not None` — the second one
does not test `recv.returncode`. -/
def sendsnapshotChecks (sendRc recvRc : Option Int) : Option OSErr :=
  if rcNe0 sendRc && sendRc.isSome then some ⟨5, "zfs send returned " ++ rcStr sendRc⟩
  else if rcNe0 recvRc && sendRc.isSome then some ⟨5, "zfs recv returned " ++ rcStr recvRc⟩
  else none

/-- The identical checks of `sendincremental` (replica.py lines 172-177). -/
def sendincrementalChecks (sendRc recvRc : Option Int) : Option OSErr :=
  if rcNe0 sendRc && sendRc.isSome then some ⟨5, "zfs send returned " ++ rcStr sendRc⟩
  else if rcNe0 recvRc && sendRc.isSome then some ⟨5, "zfs recv returned " ++ rcStr recvRc⟩
  else none

/-- Model of `sendsnapshot(src, dst, tag)` (replica.py lines 133-153) as a function
of the two children's eventual OS exit codes.  Only `recv.communicate()`
is ever called, so at the checks `recv.returncode` holds recv's exit code
while `send.returncode` is still `None` (`Popen.returncode` is set only
by `poll`/`wait`/`communicate`, none of which runs on `send`); the send
child's exit code is therefore never observed. -/
def sendsnapshot (sendExit recvExit : Int) : Option OSErr :=
  sendsnapshotChecks none (some recvExit)

/-- Model of `sendincremental(src, dst, tag1, tag2)` (replica.py lines 156-177),
modelled exactly like `sendsnapshot`. -/
def sendincremental (sendExit recvExit : Int) : Option OSErr :=
  sendincrementalChecks none (some recvExit)

/-- Model of `destroysnap(fs, snap)` (replica.py lines 180-192) as a function of
the `zfs destroy` exit code: raise `OSError(EIO, ...)` on nonzero exit. -/
def destroysnap (exitCode : Int) : Option OSErr :=
  if exitCode ≠ 0 then some ⟨5, "zfs destroy returned " ++ toString exitCode⟩ else none

/-! ## The auto-snapshot property -/

/-- What `zfs get -Ho value com.sun:auto-snapshot fs` prints (before the
trailing newline): the stored value of the user property, or the
placeholder `-` when the property was never set. -/
def reportOf : Option String → String
  | some v => v
  | none => "-"

/-- A Python 3 `bytes` value with ASCII contents, as `Popen.communicate()`
returns it when the script runs under its `python3` shebang (line 1). -/
structure PyBytes where
  bytes : List Char
deriving DecidableEq

/-- The apostrophe character, by code point. -/
def squote : Char := Char.ofNat 39

/-- The double-quote character, by code point. -/
def dquote : Char := Char.ofNat 34

/-- One byte of a Python 3 `bytes` repr: backslash, tab, newline and
carriage return (and, inside a single-quoted repr, the apostrophe) are
backslash-escaped; other non-printable bytes render as a hex escape;
printable bytes pass through. -/
def pyByteEscape (sq : Bool) (c : Char) : List Char :=
  if c = '\\' then ['\\', '\\']
  else if c = '\t' then ['\\', 't']
  else if c = '\n' then ['\\', 'n']
  else if c = '\r' then ['\\', 'r']
  else if sq ∧ c = squote then ['\\', squote]
  else if c.toNat < 32 ∨ 127 ≤ c.toNat then
    ['\\', 'x', Nat.digitChar (c.toNat / 16 % 16), Nat.digitChar (c.toNat % 16)]
  else [c]

/-- The repr of a Python 3 `bytes` value: `b` plus a quoted body with the
escapes above, quoted with double quotes when the contents hold an
apostrophe but no double quote and with single quotes otherwise, exactly
as CPython renders it. -/
def pyBytesReprL (l : List Char) : List Char :=
  if squote ∈ l ∧ dquote ∉ l then
    'b' :: dquote :: l.foldr (fun c acc => pyByteEscape false c ++ acc) [dquote]
  else
    'b' :: squote :: l.foldr (fun c acc => pyByteEscape true c ++ acc) [squote]

/-- What `"com.sun:auto-snapshot=\x7b\x7d".format(saved)` contributes after
the first `=` — the value `zfs set` stores.  `saved` is the bytes object
`communicate()[0]`, and `format` interpolates `str(bytes)`, which is the
bytes repr. -/
def pyFormatValue (b : PyBytes) : String := ⟨pyBytesReprL b.bytes⟩

/-- The raw stdout `disableauto` captures from `zfs get -Ho value`: the
reported value followed by the trailing newline, as a bytes object. -/
def rawCapture (p : Option String) : PyBytes := ⟨(reportOf p).data ++ ['\n']⟩

/-- The value the auto-snapshot property holds after the restore write for
an original property state `p` succeeds: the repr of the captured raw
bytes — for an original value `true` the nine characters `b`, quote,
`true`, backslash, `n`, quote — never `p` itself. -/
def restoredValue (p : Option String) : String := pyFormatValue (rawCapture p)

/-- Result of `disableauto`: a raised `OSError`, a direct `sys.exit`, or
the captured raw stdout together with the new property state. -/
inductive DARes where
  | raiseE (e : OSErr)
  | exitP (code : Int) (msg : String)
  | ok (saved : PyBytes) (prop : Option String)
deriving DecidableEq

/-- Model of `disableauto(fs)` (replica.py lines 32-59) acting on the auto-snapshot
property of one filesystem, as a function of the exit codes of its
`zfs get` and `zfs set` calls:
* nonzero get exit raises `OSError(EIO, ...)`;
* otherwise the raw stdout — the reported value plus a trailing newline,
  a bytes object under Python 3 — is captured, and
  `zfs set com.sun:auto-snapshot=false` runs: a negative return (signal)
  prints a diagnostic and calls `sys.exit(retcode)`; a positive return is
  not checked at all (the property is left as it was); on 0 the property
  becomes `"false"`.  The captured bytes are returned undecoded. -/
def disableauto (cGet cSet : Int) (p : Option String) : DARes :=
  if cGet ≠ 0 then .raiseE ⟨5, "zfs get returned " ++ toString cGet⟩
  else if cSet < 0 then .exitP cSet ("Child was terminated by signal " ++ toString (-cSet))
  else .ok (rawCapture p) (if cSet = 0 then some "false" else p)

/-- Result of `restoreauto`: a direct `sys.exit` or the new property
state. -/
inductive RARes where
  | exitP (code : Int) (msg : String)
  | ok (prop : Option String)
deriving DecidableEq

/-- Model of `restoreauto(fs, saved)` (replica.py lines 62-77): runs
`zfs set` on the auto-snapshot property unconditionally — there is no
special case for an originally-unset value.  `saved` is the bytes capture,
so the value actually written is its repr (`pyFormatValue`), not the
original property value.  A negative return exits with the signal value;
a positive return is ignored; on 0 the property holds the written
string. -/
def restoreauto (c : Int) (saved : PyBytes) (p : Option String) : RARes :=
  if c < 0 then .exitP c ("Child was terminated by signal " ++ toString (-c))
  else .ok (if c = 0 then some (pyFormatValue saved) else p)

/-- Result of `mksnapshot`: a direct `sys.exit` or the returned tag plus
the filesystem's snapshots afterwards. -/
inductive MKRes where
  | exitP (code : Int) (msg : String)
  | ok (tag : String) (names : List String)
deriving DecidableEq

/-- Model of `mksnapshot(fs)` (replica.py lines 80-101): creates
`<fs>@replica:<strftime tag>`.  A negative return exits with the signal
value; a positive return is NOT checked (a failed create is silently
ignored); on 0 the snapshot exists.  Returns the bare tag. -/
def mksnapshot (c : Int) (now : DT) (names : List String) : MKRes :=
  if c < 0 then .exitP c ("Child was terminated by signal " ++ toString (-c))
  else .ok (strftimeTag now)
    (if c = 0 then names ++ ["replica:" ++ strftimeTag now] else names)

/-! ## The replication session (`main`) -/

/-- The transfer-mode decision outcomes of `main` (replica.py lines
234-247). -/
inductive Decision where
  | divergence
  | full (tag : String)
  | incremental (tag1 tag2 : String)
deriving DecidableEq

/-- The transfer-mode decision of `main` (replica.py lines 234-247) on the
sorted source and destination tag lists.  `Decision.divergence` is the
`sys.exit(1)` taken before any transfer is attempted. -/
def decideMode (snaps dstsnaps : List String) : Decision :=
  if dstsnaps ≠ [] ∧ dstsnaps.getLastD "" ∉ snaps then .divergence
  else if snaps.length = 1 then .full (snaps.headD "")
  else if dstsnaps = [] then .full (snaps.getLastD "")
  else
    let recent := snaps.drop (snaps.length - 2)
    .incremental (recent.headD "") (recent.getD 1 "")

/-- A transfer performed by the session. -/
inductive SendCall where
  | full (src dst tag : String)
  | incr (src dst tag1 tag2 : String)
deriving DecidableEq

/-- The state of the two pools: each filesystem's auto-snapshot user
property (`none` = never set) and its snapshots (the names after `@`). -/
structure World where
  srcAuto : Option String
  dstAuto : Option String
  srcSnaps : List String
  dstSnaps : List String
deriving DecidableEq

/-- Running session state: pool state, printed diagnostics, transfers
performed so far. -/
structure St where
  w : World
  msgs : List String
  sends : List SendCall
deriving DecidableEq

/-- Control flow of one step of `main`: a direct `sys.exit`, an `OSError`
propagating to `main`'s `except` clause, or continuation. -/
inductive Step (α : Type) where
  | exitP (code : Int) (st : St)
  | raiseE (e : OSErr) (st : St)
  | next (a : α) (st : St)

/-- The environment's choices for one session: the exit code of every
external command in program order, the transfer children's own exit
codes, and the destination pool contents once the piped transfer has
finished. -/
structure Sched where
  getSrc : Int
  setSrcDisable : Int
  getDst : Int
  setDstDisable : Int
  snapCreate : Int
  listSrc : Int
  listDst : Int
  sendExit : Int
  recvExit : Int
  dstAfter : List String
  destroySrcCodes : List Int
  listDst2 : Int
  destroyDstCodes : List Int
  setDstRestore : Int
  setSrcRestore : Int
deriving DecidableEq

/-- One line of `zfs list -t snapshot -H` output: tab-separated fields
with the snapshot name `<fs>@<name>` first. -/
def render1 (fs name : String) : String := fs ++ "@" ++ name ++ "\t0\t0\t0\t-"

/-- The sorted managed-tag inventory the script computes for a filesystem
holding the given snapshots. -/
def listingOf (fs : String) (names : List String) : List String :=
  snapshotsLines (names.map (render1 fs))

/-- A filesystem or snapshot name free of the characters that structure a
`zfs list` line; ZFS itself forbids `@`, tab and newline in them. -/
def CleanName (s : String) : Prop :=
  '@' ∉ s.data ∧ '\t' ∉ s.data ∧ '\n' ∉ s.data

instance CleanName.inst (s : String) : Decidable (CleanName s) :=
  inferInstanceAs (Decidable ('@' ∉ s.data ∧ '\t' ∉ s.data ∧ '\n' ∉ s.data))

/-- Result of a pruning loop: a raised `OSError` or completion, either way
with the filesystem's remaining snapshots. -/
inductive PLRes where
  | raiseE (e : OSErr) (names : List String)
  | ok (names : List String)
deriving DecidableEq

/-- The pruning loops of `main` (replica.py lines 251-252 and 259-260):
destroy each listed old snapshot in order.  `destroysnap` raises on the
first nonzero exit code (that snapshot then still exists); on exit 0 the
snapshot is removed from the filesystem. -/
def pruneLoop (codes : List Int) (tags : List String) (names : List String) : PLRes :=
  match tags with
  | [] => .ok names
  | t :: ts =>
    match destroysnap (codes.headD 0) with
    | some e => .raiseE e names
    | none => pruneLoop codes.tail ts (names.erase t)

/-- Lines 234-247 of `main`: the divergence abort, the choice of full or
incremental transfer, and the transfer itself.  On divergence the session
exits with status 1 before any transfer.  The piped transfer never raises
(see `sendsnapshot`); the destination pool contents afterwards are the
environment's `dstAfter`. -/
def sendStage (src dst : String) (snaps dstsnaps : List String)
    (sendExit recvExit : Int) (dstAfter : List String) (st : St) : Step Unit :=
  match decideMode snaps dstsnaps with
  | .divergence =>
    .exitP 1 { st with msgs := st.msgs ++
      ["Destination snapshots out of sync with source, destroy and try again."] }
  | .full tag =>
    let st := { st with sends := st.sends ++ [.full src dst tag] }
    match sendsnapshot sendExit recvExit with
    | some e => .raiseE e st
    | none => .next () { st with w := { st.w with dstSnaps := dstAfter } }
  | .incremental t1 t2 =>
    let st := { st with sends := st.sends ++ [.incr src dst t1 t2] }
    match sendincremental sendExit recvExit with
    | some e => .raiseE e st
    | none => .next () { st with w := { st.w with dstSnaps := dstAfter } }

/-- The `try` block of `main` (replica.py lines 222-263). -/
def mainBody (src dst : String) (now : DT) (st : St) (sch : Sched) : Step Unit :=
  match disableauto sch.getSrc sch.setSrcDisable st.w.srcAuto with
  | .raiseE e => .raiseE e st
  | .exitP c m => .exitP c { st with msgs := st.msgs ++ [m] }
  | .ok assrc p =>
    let st := { st with w := { st.w with srcAuto := p } }
    match disableauto sch.getDst sch.setDstDisable st.w.dstAuto with
    | .raiseE e => .raiseE e st
    | .exitP c m => .exitP c { st with msgs := st.msgs ++ [m] }
    | .ok asdst pd =>
      let st := { st with w := { st.w with dstAuto := pd } }
      match mksnapshot sch.snapCreate now st.w.srcSnaps with
      | .exitP c m => .exitP c { st with msgs := st.msgs ++ [m] }
      | .ok _tag names =>
        let st := { st with w := { st.w with srcSnaps := names } }
        match snapshots sch.listSrc (joinLines (st.w.srcSnaps.map (render1 src))) "" with
        | .error e => .raiseE e st
        | .ok snaps =>
          if snaps.length = 0 then
            .exitP 1 { st with msgs := st.msgs ++ ["Failed to create new snapshot in " ++ src] }
          else
            match snapshots sch.listDst (joinLines (st.w.dstSnaps.map (render1 dst))) "" with
            | .error e => .raiseE e st
            | .ok dstsnaps =>
              match sendStage src dst snaps dstsnaps sch.sendExit sch.recvExit sch.dstAfter st with
              | .exitP c st => .exitP c st
              | .raiseE e st => .raiseE e st
              | .next _ st =>
                match pruneLoop sch.destroySrcCodes (snaps.take (snaps.length - 2)) st.w.srcSnaps with
                | .raiseE e names => .raiseE e { st with w := { st.w with srcSnaps := names } }
                | .ok names =>
                  let st := { st with w := { st.w with srcSnaps := names } }
                  match snapshots sch.listDst2 (joinLines (st.w.dstSnaps.map (render1 dst))) "" with
                  | .error e => .raiseE e st
                  | .ok dstsnaps2 =>
                    if dstsnaps2.length = 0 then
                      .exitP 1 { st with msgs := st.msgs ++ ["Failed to create new snapshot in " ++ dst] }
                    else
                      match pruneLoop sch.destroyDstCodes (dstsnaps2.take (dstsnaps2.length - 2)) st.w.dstSnaps with
                      | .raiseE e names => .raiseE e { st with w := { st.w with dstSnaps := names } }
                      | .ok names =>
                        let st := { st with w := { st.w with dstSnaps := names } }
                        match restoreauto sch.setDstRestore asdst st.w.dstAuto with
                        | .exitP c m => .exitP c { st with msgs := st.msgs ++ [m] }
                        | .ok pd2 =>
                          let st := { st with w := { st.w with dstAuto := pd2 } }
                          match restoreauto sch.setSrcRestore assrc st.w.srcAuto with
                          | .exitP c m => .exitP c { st with msgs := st.msgs ++ [m] }
                          | .ok ps2 =>
                            .next () { st with w := { st.w with srcAuto := ps2 } }

/-- The outcome of one process invocation: exit status, final pool state,
printed diagnostics, transfers performed. -/
structure Outcome where
  exitCode : Int
  world : World
  msgs : List String
  sends : List SendCall
deriving DecidableEq

/-- Model of `main()` (replica.py lines 195-266) for an invocation with no option
flags, as a function of the positional arguments, the current UTC time,
the initial pool state and the environment's schedule.  With fewer than
two arguments it prints the usage hint and exits 0.  An `OSError` raised
inside the `try` block is caught by the single `except` clause, which
prints `Execution failed: <e>` (where `str(OSError(5, m))` is
`"[Errno 5] " ++ m`) and exits with status 1.  Falling off the end of
`main` exits with status 0. -/
def mainRun (args : List String) (now : DT) (w : World) (sch : Sched) : Outcome :=
  if args.length < 2 then
    ⟨0, w, ["Usage: replica.py [options] <srcfs> <dstfs>",
            "Invoke with --help for helpful information"], []⟩
  else
    let src := args.getD 0 ""
    let dst := args.getD 1 ""
    match mainBody src dst now ⟨w, [], []⟩ sch with
    | .exitP c st => ⟨c, st.w, st.msgs, st.sends⟩
    | .raiseE e st =>
      ⟨1, st.w, st.msgs ++ ["Execution failed: [Errno " ++ toString e.errnoVal ++ "] " ++ e.msg],
        st.sends⟩
    | .next _ st => ⟨0, st.w, st.msgs, st.sends⟩

/-! ## The fixed tag format (spec-side definition, for comparison) -/

/-- Does `\d{4}-\d{2}-\d{2}-\d{2}:\d{2}` match the WHOLE list (nothing
after the minute field)? -/
def tsExact : List Char → Bool
  | [y1, y2, y3, y4, '-', o1, o2, '-', d1, d2, '-', h1, h2, ':', n1, n2] =>
    y1.isDigit && y2.isDigit && y3.isDigit && y4.isDigit && o1.isDigit && o2.isDigit &&
    d1.isDigit && d2.isDigit && h1.isDigit && h2.isDigit && n1.isDigit && n2.isDigit
  | _ => false

/-- Modelled from the spec: a tag that is exactly `replica:` followed by
the fixed timestamp format `YYYY-mm-dd-HH:MM` and nothing else.  This is
the spec's notion of a well-formed managed tag, used to compare with what
the source's substring search actually returns. -/
def specExactTagFormat (s : String) : Bool :=
  match s.data with
  | 'r' :: 'e' :: 'p' :: 'l' :: 'i' :: 'c' :: 'a' :: ':' :: rest => tsExact rest
  | _ => false


/-! ## Small list lemmas -/

theorem headD_eq_getD (l : List String) (d : String) : l.headD d = l.getD 0 d := by
  cases l <;> rfl

theorem getD_drop (l : List String) (k i : Nat) (d : String) :
    (l.drop k).getD i d = l.getD (k + i) d := by
  simp [List.getD_eq_getElem?_getD, List.getElem?_drop]

/-! ## C3 -/

/-- C3: the claim is false of the code.  For every pair of child OS exit
codes — in particular a failing receive side — neither `sendsnapshot` nor
`sendincremental` raises anything: `send.returncode` is still `None` at
the checks (the send child is never waited on), so the guard
`send.returncode is not None` in BOTH checks is false, and no non-zero
exit is ever reported. -/
theorem c3_transfer_checks_never_raise (sendExit recvExit : Int) :
    sendsnapshot sendExit recvExit = none ∧ sendincremental sendExit recvExit = none := by
  constructor <;>
    simp [sendsnapshot, sendincremental, sendsnapshotChecks, sendincrementalChecks, rcNe0]

/-! ## C8 -/

/-- C8: counterexample to "the raised failure carries the command's stderr
text": a failing listing with a non-empty stderr raises exactly
`OSError(5, "zfs list returned 1")`, the very same value raised when
stderr is empty — the stderr text is discarded. -/
theorem c8_counterexample :
    snapshots 1 "" "zfs: cannot open pool: permission denied" =
      Except.error ⟨5, "zfs list returned 1"⟩ ∧
    snapshots 1 "" "" = snapshots 1 "" "zfs: cannot open pool: permission denied" :=
  ⟨rfl, rfl⟩

/-- C8 (amended): whenever the snapshot-listing command exits non-zero,
`snapshots` raises a Command Failure (an `OSError` with errno `EIO`)
whose message carries the underlying exit code, rather than returning a
list; the command's stderr text is captured but discarded, so the failure
does not carry it. -/
theorem c8_list_failure_raises (exitCode : Int) (stdout stderr : String) (h : exitCode ≠ 0) :
    snapshots exitCode stdout stderr =
      .error ⟨5, "zfs list returned " ++ toString exitCode⟩ := by
  simp [snapshots, h]

theorem c8_list_failure_raises_witness :
    snapshots 2 "out" "boom" = .error ⟨5, "zfs list returned 2"⟩ :=
  c8_list_failure_raises 2 "out" "boom" (by decide)

/-! ## C9 -/

/-- C9: invoked with fewer than two positional arguments, the controller
prints the usage hint and exits with status 0, with the pool state
untouched (no snapshot creation, no property mutation) and no transfer
performed. -/
theorem c9_usage_exit_zero (args : List String) (now : DT) (w : World) (sch : Sched)
    (h : args.length < 2) :
    mainRun args now w sch =
      ⟨0, w, ["Usage: replica.py [options] <srcfs> <dstfs>",
              "Invoke with --help for helpful information"], []⟩ := by
  unfold mainRun
  simp [h]

theorem c9_usage_exit_zero_witness :
    mainRun ["tank"] ⟨2024, 1, 2, 3, 4⟩ ⟨some "true", none, ["a"], []⟩
        ⟨0, 0, 0, 0, 0, 0, 0, 0, 0, [], [], 0, [], 0, 0⟩ =
      ⟨0, ⟨some "true", none, ["a"], []⟩,
        ["Usage: replica.py [options] <srcfs> <dstfs>",
         "Invoke with --help for helpful information"], []⟩ :=
  c9_usage_exit_zero ["tank"] ⟨2024, 1, 2, 3, 4⟩ ⟨some "true", none, ["a"], []⟩
    ⟨0, 0, 0, 0, 0, 0, 0, 0, 0, [], [], 0, [], 0, 0⟩ (by decide)

/-! ## C10 -/

/-- C10: the managed-snapshot filter is a substring search: every listing
line matched anywhere by `@replica:` + `NNNN-NN-NN-NN:NN` contributes its
extracted tag to the returned list; concretely, a snapshot named
`replica:2024-01-02-03:045xx` (extra characters after the minute field)
is returned even though its tag is not exactly of the fixed timestamp
format. -/
theorem c10_substring_search :
    (∀ (lines : List String) (line : String), line ∈ lines → reSearch line.data = true →
      atField (tabField line) ∈ snapshotsLines lines) ∧
    snapshotsLines ["tank@replica:2024-01-02-03:045xx\t0\t0\t0\t-"] =
      ["replica:2024-01-02-03:045xx"] ∧
    specExactTagFormat "replica:2024-01-02-03:045xx" = false := by
  refine ⟨?_, by decide, by decide⟩
  intro lines line hmem hsearch
  unfold snapshotsLines sortPy
  rw [List.mem_insertionSort]
  simp only [List.mem_map]
  exact ⟨tabField line, ⟨line, List.mem_filter.mpr ⟨hmem, hsearch⟩, rfl⟩, rfl⟩

theorem c10_substring_search_witness :
    atField (tabField "tank@replica:2024-01-02-03:045xx\t0\t0\t0\t-") ∈
      snapshotsLines ["tank@replica:2024-01-02-03:045xx\t0\t0\t0\t-"] :=
  c10_substring_search.1 _ _ (by simp) (by decide)

/-! ## C2 -/

/-- C2: on the sorted tag lists at decision time (the source list is
non-empty, the earlier abort having handled the empty case): if the
destination list is non-empty and its latest tag is not in the source
list, the decision is the divergence abort and `sendStage` exits with
status 1 before performing any transfer; otherwise a singleton source
yields a full send of that tag; otherwise an empty destination yields a
full send of the newest source tag; otherwise an incremental send
spanning the source's second-newest and newest tags. -/
theorem c2_decide_mode (snaps dstsnaps : List String)
    (hne : snaps ≠ [])
    (hs1 : List.Pairwise pyLe snaps) (hs2 : List.Pairwise pyLe dstsnaps) :
    (dstsnaps ≠ [] ∧ dstsnaps.getLastD "" ∉ snaps →
      decideMode snaps dstsnaps = .divergence ∧
      ∀ src dst sendExit recvExit dstAfter st,
        sendStage src dst snaps dstsnaps sendExit recvExit dstAfter st =
          .exitP 1 { st with msgs := st.msgs ++
            ["Destination snapshots out of sync with source, destroy and try again."] }) ∧
    ((dstsnaps = [] ∨ dstsnaps.getLastD "" ∈ snaps) →
      (snaps.length = 1 → decideMode snaps dstsnaps = .full (snaps.headD "")) ∧
      (snaps.length ≠ 1 → dstsnaps = [] →
        decideMode snaps dstsnaps = .full (snaps.getLastD "")) ∧
      (snaps.length ≠ 1 → dstsnaps ≠ [] →
        decideMode snaps dstsnaps =
          .incremental (snaps.getD (snaps.length - 2) "")
            (snaps.getD (snaps.length - 1) ""))) := by
  constructor
  · intro hdiv
    have hd : decideMode snaps dstsnaps = .divergence := by
      unfold decideMode
      rw [if_pos hdiv]
    refine ⟨hd, ?_⟩
    intro src dst sendExit recvExit dstAfter st
    unfold sendStage
    rw [hd]
  · intro hok
    have hnotdiv : ¬(dstsnaps ≠ [] ∧ dstsnaps.getLastD "" ∉ snaps) := by
      rcases hok with h | h
      · intro hc
        exact hc.1 h
      · intro hc
        exact hc.2 h
    refine ⟨?_, ?_, ?_⟩
    · intro h1
      unfold decideMode
      rw [if_neg hnotdiv, if_pos h1]
    · intro h1 h2
      unfold decideMode
      rw [if_neg hnotdiv, if_neg h1, if_pos h2]
    · intro h1 h2
      have h0 : snaps.length ≠ 0 := fun h0 => hne (List.length_eq_zero.mp h0)
      unfold decideMode
      rw [if_neg hnotdiv, if_neg h1, if_neg h2]
      show Decision.incremental ((snaps.drop (snaps.length - 2)).headD "")
        ((snaps.drop (snaps.length - 2)).getD 1 "") = _
      have e1 : (snaps.drop (snaps.length - 2)).headD "" =
          snaps.getD (snaps.length - 2) "" := by
        rw [headD_eq_getD, getD_drop, Nat.add_zero]
      have e2 : (snaps.drop (snaps.length - 2)).getD 1 "" =
          snaps.getD (snaps.length - 1) "" := by
        rw [getD_drop]
        congr 1
        omega
      rw [e1, e2]

theorem c2_decide_mode_witness :
    decideMode ["a", "b"] ["a"] = .incremental "a" "b" := by
  have h := ((c2_decide_mode ["a", "b"] ["a"] (by decide) (by decide) (by decide)).2
    (Or.inr (by decide))).2.2 (by decide) (by decide)
  simpa using h

/-! ## C7: lexicographic order of tags = chronological order -/

theorem pyLtCL_cons_same (c : Char) (x y : List Char) :
    pyLtCL (c :: x) (c :: y) = pyLtCL x y := by
  simp [pyLtCL]

theorem pyLtCL_append (a b x y : List Char) (h : a.length = b.length) :
    pyLtCL (a ++ x) (b ++ y) = (pyLtCL a b || (decide (a = b) && pyLtCL x y)) := by
  induction a generalizing b with
  | nil =>
    cases b with
    | nil => simp [pyLtCL]
    | cons d bs => simp at h
  | cons c as ih =>
    cases b with
    | nil => simp at h
    | cons d bs =>
      have h' : as.length = bs.length := by simpa using h
      rw [List.cons_append, List.cons_append]
      show (if c < d then true else if c = d then pyLtCL (as ++ x) (bs ++ y) else false) =
        ((if c < d then true else if c = d then pyLtCL as bs else false) ||
          (decide (c :: as = d :: bs) && pyLtCL x y))
      by_cases hcd : c < d
      · rw [if_pos hcd, if_pos hcd, Bool.true_or]
      · rw [if_neg hcd, if_neg hcd]
        by_cases hce : c = d
        · subst hce
          rw [if_pos rfl, if_pos rfl, ih bs h']
          have hd : decide (c :: as = c :: bs) = decide (as = bs) :=
            decide_eq_decide.mpr (by simp)
          rw [hd]
        · rw [if_neg hce, if_neg hce]
          have hd : decide (c :: as = d :: bs) = false := by
            simp [hce]
          rw [hd, Bool.false_and, Bool.or_false]

theorem digitChar_lt : ∀ a, a < 10 → ∀ b, b < 10 →
    (Nat.digitChar a < Nat.digitChar b ↔ a < b) := by decide

theorem digitChar_inj : ∀ a, a < 10 → ∀ b, b < 10 →
    (Nat.digitChar a = Nat.digitChar b ↔ a = b) := by decide

theorem pad2_lt_iff (m n : Nat) (hm : m < 100) (hn : n < 100) :
    (pyLtCL (pad2 m) (pad2 n) = true ↔ m < n) := by
  have e1 := digitChar_lt (m / 10 % 10) (by omega) (n / 10 % 10) (by omega)
  have e2 := digitChar_inj (m / 10 % 10) (by omega) (n / 10 % 10) (by omega)
  have e3 := digitChar_lt (m % 10) (by omega) (n % 10) (by omega)
  have e4 := digitChar_inj (m % 10) (by omega) (n % 10) (by omega)
  simp only [pad2, pyLtCL]
  by_cases h1 : m / 10 % 10 < n / 10 % 10
  · rw [if_pos (e1.mpr h1)]
    exact iff_of_true rfl (by omega)
  · rw [if_neg (fun hc => h1 (e1.mp hc))]
    by_cases h2 : m / 10 % 10 = n / 10 % 10
    · rw [if_pos (e2.mpr h2)]
      by_cases h3 : m % 10 < n % 10
      · rw [if_pos (e3.mpr h3)]
        exact iff_of_true rfl (by omega)
      · rw [if_neg (fun hc => h3 (e3.mp hc))]
        by_cases h4 : m % 10 = n % 10
        · rw [if_pos (e4.mpr h4)]
          exact iff_of_false (by simp) (by omega)
        · rw [if_neg (fun hc => h4 (e4.mp hc))]
          exact iff_of_false (by simp) (by omega)
    · rw [if_neg (fun hc => h2 (e2.mp hc))]
      exact iff_of_false (by simp) (by omega)

theorem pad2_eq_iff (m n : Nat) (hm : m < 100) (hn : n < 100) :
    (pad2 m = pad2 n ↔ m = n) := by
  have e2 := digitChar_inj (m / 10 % 10) (by omega) (n / 10 % 10) (by omega)
  have e4 := digitChar_inj (m % 10) (by omega) (n % 10) (by omega)
  simp only [pad2, List.cons.injEq, and_true]
  rw [e2, e4]
  omega

theorem pad4_lt_iff (m n : Nat) (hm : m ≤ 9999) (hn : n ≤ 9999) :
    (pyLtCL (pad4 m) (pad4 n) = true ↔ m < n) := by
  rw [pad4, pad4, pyLtCL_append (pad2 (m / 100)) (pad2 (n / 100)) _ _ rfl]
  simp only [Bool.or_eq_true, Bool.and_eq_true, decide_eq_true_eq]
  rw [pad2_lt_iff (m / 100) (n / 100) (by omega) (by omega),
    pad2_lt_iff (m % 100) (n % 100) (by omega) (by omega),
    pad2_eq_iff (m / 100) (n / 100) (by omega) (by omega)]
  omega

theorem pad4_eq_iff (m n : Nat) (hm : m ≤ 9999) (hn : n ≤ 9999) :
    (pad4 m = pad4 n ↔ m = n) := by
  rw [pad4, pad4]
  constructor
  · intro h
    have hij := List.append_inj h rfl
    have e1 := (pad2_eq_iff (m / 100) (n / 100) (by omega) (by omega)).mp hij.1
    have e2 := (pad2_eq_iff (m % 100) (n % 100) (by omega) (by omega)).mp hij.2
    omega
  · intro h
    rw [h]

theorem strftimeTag_lt_iff (a b : DT) (ha : a.valid) (hb : b.valid) :
    (pyLtCL (strftimeTag a).data (strftimeTag b).data = true ↔ a.key < b.key) := by
  obtain ⟨ha1, ha2, ha3, ha4, ha5, ha6, ha7, ha8⟩ := ha
  obtain ⟨hb1, hb2, hb3, hb4, hb5, hb6, hb7, hb8⟩ := hb
  show pyLtCL
      (pad4 a.year ++ '-' :: (pad2 a.month ++ '-' :: (pad2 a.day ++ '-' :: (pad2 a.hour ++ ':' :: pad2 a.minute))))
      (pad4 b.year ++ '-' :: (pad2 b.month ++ '-' :: (pad2 b.day ++ '-' :: (pad2 b.hour ++ ':' :: pad2 b.minute))))
      = true ↔ _
  rw [pyLtCL_append (pad4 a.year) (pad4 b.year) _ _ rfl, pyLtCL_cons_same,
    pyLtCL_append (pad2 a.month) (pad2 b.month) _ _ rfl, pyLtCL_cons_same,
    pyLtCL_append (pad2 a.day) (pad2 b.day) _ _ rfl, pyLtCL_cons_same,
    pyLtCL_append (pad2 a.hour) (pad2 b.hour) _ _ rfl, pyLtCL_cons_same]
  simp only [Bool.or_eq_true, Bool.and_eq_true, decide_eq_true_eq]
  rw [pad4_lt_iff a.year b.year ha2 hb2, pad4_eq_iff a.year b.year ha2 hb2,
    pad2_lt_iff a.month b.month (by omega) (by omega),
    pad2_eq_iff a.month b.month (by omega) (by omega),
    pad2_lt_iff a.day b.day (by omega) (by omega),
    pad2_eq_iff a.day b.day (by omega) (by omega),
    pad2_lt_iff a.hour b.hour (by omega) (by omega),
    pad2_eq_iff a.hour b.hour (by omega) (by omega),
    pad2_lt_iff a.minute b.minute (by omega) (by omega)]
  unfold DT.key
  omega

theorem chronLE_iff_key (a b : DT) (ha : a.valid) (hb : b.valid) :
    chronLE a b ↔ a.key ≤ b.key := by
  obtain ⟨ha1, ha2, ha3, ha4, ha5, ha6, ha7, ha8⟩ := ha
  obtain ⟨hb1, hb2, hb3, hb4, hb5, hb6, hb7, hb8⟩ := hb
  unfold chronLE DT.key
  omega

/-- C7: for all (epoch-reachable) UTC timestamps, the tags produced by
`strftime("%Y-%m-%d-%H:%M")` compare in Python's lexicographic string
order exactly as the timestamps compare chronologically, which is why the
inventory's lexicographic sort of generated tags is chronological. -/
theorem c7_tag_order (a b : DT) (ha : a.valid) (hb : b.valid) :
    chronLE a b ↔ pyLe (strftimeTag a) (strftimeTag b) := by
  rw [chronLE_iff_key a b ha hb, pyLe]
  have h := strftimeTag_lt_iff b a hb ha
  constructor
  · intro hle
    cases hbool : pyLtCL (strftimeTag b).data (strftimeTag a).data with
    | false => rfl
    | true =>
      have := h.mp hbool
      omega
  · intro hf
    by_contra hlt
    have hk : b.key < a.key := by omega
    have := h.mpr hk
    rw [hf] at this
    cases this

theorem c7_tag_order_witness :
    chronLE ⟨2024, 5, 6, 7, 8⟩ ⟨2024, 5, 6, 7, 9⟩ ↔
      pyLe (strftimeTag ⟨2024, 5, 6, 7, 8⟩) (strftimeTag ⟨2024, 5, 6, 7, 9⟩) :=
  c7_tag_order ⟨2024, 5, 6, 7, 8⟩ ⟨2024, 5, 6, 7, 9⟩ (by simp [DT.valid]) (by simp [DT.valid])

/-! ## Split / join round trips -/

theorem splitOnCharL_ne_nil (sep : Char) (l : List Char) : splitOnCharL sep l ≠ [] := by
  cases l with
  | nil => simp [splitOnCharL]
  | cons c rest =>
    unfold splitOnCharL
    cases splitOnCharL sep rest with
    | nil => simp
    | cons h t =>
      by_cases hc : c = sep <;> simp [hc]

theorem splitOnCharL_no_sep (sep : Char) (l : List Char) (h : sep ∉ l) :
    splitOnCharL sep l = [l] := by
  induction l with
  | nil => rfl
  | cons c rest ih =>
    have hc : c ≠ sep := fun hc => h (hc ▸ List.mem_cons_self c rest)
    have hr : sep ∉ rest := fun hr => h (List.mem_cons_of_mem c hr)
    unfold splitOnCharL
    rw [ih hr]
    simp [hc]

theorem splitOnCharL_cons (sep c : Char) (rest : List Char) :
    splitOnCharL sep (c :: rest) =
      match splitOnCharL sep rest with
      | [] => [[c]]
      | h :: t => if c = sep then [] :: h :: t else (c :: h) :: t := rfl

theorem splitOnCharL_append_sep (sep : Char) (l r : List Char) (h : sep ∉ l) :
    splitOnCharL sep (l ++ sep :: r) = l :: splitOnCharL sep r := by
  induction l with
  | nil =>
    show splitOnCharL sep (sep :: r) = [] :: splitOnCharL sep r
    rw [splitOnCharL_cons]
    cases hsp : splitOnCharL sep r with
    | nil => exact absurd hsp (splitOnCharL_ne_nil sep r)
    | cons a t => simp
  | cons c rest ih =>
    have hc : c ≠ sep := fun hc => h (hc ▸ List.mem_cons_self c rest)
    have hr : sep ∉ rest := fun hr => h (List.mem_cons_of_mem c hr)
    show splitOnCharL sep (c :: (rest ++ sep :: r)) = (c :: rest) :: splitOnCharL sep r
    rw [splitOnCharL_cons, ih hr]
    simp [hc]

theorem ne_empty_of_data_ne_nil {s : String} (h : s.data ≠ []) : s ≠ "" := by
  intro he
  rw [he] at h
  exact h rfl

theorem pySplit_joinLines (lines : List String) (hne : lines ≠ [])
    (h : ∀ x ∈ lines, '\n' ∉ x.data) :
    pySplit '\n' (joinLines lines) = lines := by
  induction lines with
  | nil => exact absurd rfl hne
  | cons l ls ih =>
    cases ls with
    | nil =>
      show pySplit '\n' l = [l]
      unfold pySplit
      rw [splitOnCharL_no_sep '\n' l.data (h l (by simp))]
      rfl
    | cons x xs =>
      show pySplit '\n' (l ++ "\n" ++ joinLines (x :: xs)) = l :: x :: xs
      unfold pySplit
      have hdata : (l ++ "\n" ++ joinLines (x :: xs)).data =
          l.data ++ '\n' :: (joinLines (x :: xs)).data := by
        rw [String.data_append, String.data_append, List.append_assoc]
        rfl
      rw [hdata, splitOnCharL_append_sep '\n' _ _ (h l (by simp))]
      have hrec := ih (by simp) (fun y hy => h y (List.mem_cons_of_mem l hy))
      unfold pySplit at hrec
      simp only [List.map_cons]
      rw [hrec]

theorem joinLines_ne_empty (l : String) (ls : List String) (hl : l ≠ "") :
    joinLines (l :: ls) ≠ "" := by
  cases ls with
  | nil => exact hl
  | cons x xs =>
    show l ++ "\n" ++ joinLines (x :: xs) ≠ ""
    apply ne_empty_of_data_ne_nil
    rw [String.data_append, String.data_append]
    intro hcontra
    have : '\n' ∈ l.data ++ ("\n".data ++ (joinLines (x :: xs)).data) := by
      apply List.mem_append.mpr
      right
      apply List.mem_append.mpr
      left
      simp [show ("\n" : String).data = ['\n'] from rfl]
    rw [List.append_assoc] at hcontra
    rw [hcontra] at this
    cases this

theorem pySplitlines_joinLines (lines : List String)
    (h : ∀ x ∈ lines, x ≠ "" ∧ '\n' ∉ x.data) :
    pySplitlines (joinLines lines) = lines := by
  cases lines with
  | nil => rfl
  | cons l ls =>
    have hne : joinLines (l :: ls) ≠ "" := joinLines_ne_empty l ls (h l (by simp)).1
    unfold pySplitlines
    rw [if_neg hne]
    have hsplit : pySplit '\n' (joinLines (l :: ls)) = l :: ls :=
      pySplit_joinLines (l :: ls) (by simp) (fun x hx => (h x hx).2)
    rw [hsplit]
    have hlast : (l :: ls).getLast? ≠ some "" := by
      intro hc
      have hmem : "" ∈ l :: ls := by
        have := List.mem_getLast?_eq_getLast (l := l :: ls) (x := "") hc
        obtain ⟨hh, heq⟩ := this
        rw [heq]
        exact List.getLast_mem hh
      exact (h "" hmem).1 rfl
    rw [if_neg hlast]

/-! ## Listing lines and their extraction -/

theorem render1_data (fs n : String) :
    (render1 fs n).data =
      (fs.data ++ '@' :: n.data) ++
        '\t' :: '0' :: '\t' :: '0' :: '\t' :: '0' :: '\t' :: '-' :: [] := by
  unfold render1
  rw [String.data_append, String.data_append, String.data_append]
  have h1 : ("@" : String).data = ['@'] := rfl
  have h2 : ("\t0\t0\t0\t-" : String).data =
      '\t' :: '0' :: '\t' :: '0' :: '\t' :: '0' :: '\t' :: '-' :: [] := rfl
  rw [h1, h2, List.append_assoc fs.data ['@'] n.data]
  rfl

theorem data_fs_at_n (fs n : String) :
    (fs ++ "@" ++ n).data = fs.data ++ '@' :: n.data := by
  rw [String.data_append, String.data_append, List.append_assoc]
  rfl

theorem tab_not_in_name (fs n : String) (hfs : '\t' ∉ fs.data) (hn : '\t' ∉ n.data) :
    '\t' ∉ fs.data ++ '@' :: n.data := by
  intro hmem
  rcases List.mem_append.mp hmem with h | h
  · exact hfs h
  · rcases List.mem_cons.mp h with h | h
    · exact absurd h (by decide)
    · exact hn h

theorem tabField_render1 (fs n : String) (hfs : '\t' ∉ fs.data) (hn : '\t' ∉ n.data) :
    tabField (render1 fs n) = fs ++ "@" ++ n := by
  unfold tabField pySplit
  rw [render1_data, splitOnCharL_append_sep _ _ _ (tab_not_in_name fs n hfs hn)]
  simp only [List.map_cons, List.headD_cons]
  apply String.ext
  rw [data_fs_at_n]

theorem atField_pair (fs n : String) (hfs : '@' ∉ fs.data) (hn : '@' ∉ n.data) :
    atField (fs ++ "@" ++ n) = n := by
  unfold atField pySplit
  rw [data_fs_at_n, splitOnCharL_append_sep _ _ _ hfs, splitOnCharL_no_sep _ _ hn]
  rfl

theorem extract_render1 (fs n : String) (hfs : CleanName fs) (hn : CleanName n) :
    atField (tabField (render1 fs n)) = n := by
  rw [tabField_render1 fs n hfs.2.1 hn.2.1, atField_pair fs n hfs.1 hn.1]

theorem filter_map_comm (p : String → Bool) (f : String → String) (l : List String) :
    (l.map f).filter p = (l.filter (fun x => p (f x))).map f := by
  induction l with
  | nil => rfl
  | cons x xs ih =>
    simp only [List.map_cons, List.filter_cons]
    by_cases h : p (f x) <;> simp [h, ih]

theorem map_extract_eq (fs : String) (l : List String)
    (hfs : CleanName fs) (h : ∀ n ∈ l, CleanName n) :
    List.map atField (List.map tabField (List.map (render1 fs) l)) = l := by
  induction l with
  | nil => rfl
  | cons x xs ih =>
    simp only [List.map_cons, List.cons.injEq]
    exact ⟨extract_render1 fs x hfs (h x (by simp)),
      ih (fun n hn => h n (List.mem_cons_of_mem x hn))⟩

theorem listingOf_eq_filter (fs : String) (names : List String)
    (hfs : CleanName fs) (h : ∀ n ∈ names, CleanName n) :
    listingOf fs names =
      sortPy (names.filter (fun n => reSearch (render1 fs n).data)) := by
  show sortPy (List.map atField (List.map tabField
      (List.filter (fun snap => reSearch snap.data) (List.map (render1 fs) names)))) = _
  rw [filter_map_comm]
  rw [map_extract_eq fs _ hfs (fun n hn => h n (List.mem_filter.mp hn).1)]

theorem render1_ne_empty (fs n : String) : render1 fs n ≠ "" := by
  apply ne_empty_of_data_ne_nil
  rw [render1_data]
  simp

theorem newline_not_in_render1 (fs n : String) (hfs : '\n' ∉ fs.data) (hn : '\n' ∉ n.data) :
    '\n' ∉ (render1 fs n).data := by
  rw [render1_data]
  intro hmem
  rcases List.mem_append.mp hmem with h | h
  · rcases List.mem_append.mp h with h | h
    · exact hfs h
    · rcases List.mem_cons.mp h with h | h
      · exact absurd h (by decide)
      · exact hn h
  · exact absurd h (by decide)

theorem snapshots_render (fs : String) (names : List String)
    (hfs : CleanName fs) (h : ∀ n ∈ names, CleanName n) :
    snapshots 0 (joinLines (names.map (render1 fs))) "" = .ok (listingOf fs names) := by
  show Except.ok (snapshotsLines (pySplitlines (joinLines (names.map (render1 fs))))) = _
  rw [pySplitlines_joinLines]
  · rfl
  · intro x hx
    obtain ⟨n, hn, rfl⟩ := List.mem_map.mp hx
    exact ⟨render1_ne_empty fs n, newline_not_in_render1 fs n hfs.2.2 (h n hn).2.2⟩

/-! ## The pruning loop under all-zero exit codes -/

theorem pruneLoop_cons (codes : List Int) (t : String) (ts names : List String) :
    pruneLoop codes (t :: ts) names =
      match destroysnap (codes.headD 0) with
      | some e => .raiseE e names
      | none => pruneLoop codes.tail ts (names.erase t) := rfl

theorem pruneLoop_all_zero (tags : List String) (codes : List Int) (names : List String)
    (h : ∀ c ∈ codes, c = 0) :
    pruneLoop codes tags names = .ok (tags.foldl (fun ns t => ns.erase t) names) := by
  induction tags generalizing codes names with
  | nil => rfl
  | cons t ts ih =>
    have hc : codes.headD 0 = 0 := by
      cases codes with
      | nil => rfl
      | cons c cs => exact h c (by simp)
    have hd : destroysnap (codes.headD 0) = none := by rw [hc]; rfl
    rw [pruneLoop_cons, hd, List.foldl_cons]
    apply ih
    intro c hcmem
    cases codes with
    | nil => exact absurd hcmem (by simp)
    | cons c0 cs => exact h c (List.mem_cons_of_mem c0 hcmem)

/-! ## The successful session -/

theorem disableauto_zero (p : Option String) :
    disableauto 0 0 p = .ok (rawCapture p) (some "false") := rfl

theorem restoreauto_zero (saved : PyBytes) (p : Option String) :
    restoreauto 0 saved p = .ok (some (pyFormatValue saved)) := rfl

theorem mksnapshot_zero (now : DT) (names : List String) :
    mksnapshot 0 now names = .ok (strftimeTag now) (names ++ ["replica:" ++ strftimeTag now]) := rfl

theorem sendsnapshot_none (sendExit recvExit : Int) :
    sendsnapshot sendExit recvExit = none := by
  simp [sendsnapshot, sendsnapshotChecks, rcNe0]

theorem sendincremental_none (sendExit recvExit : Int) :
    sendincremental sendExit recvExit = none := by
  simp [sendincremental, sendincrementalChecks, rcNe0]

theorem pad2_no_bad (n : Nat) (b : Char) (hb : ∀ k, k < 10 → Nat.digitChar k ≠ b) :
    b ∉ pad2 n := by
  intro hmem
  rcases List.mem_cons.mp hmem with h | h
  · exact hb (n / 10 % 10) (by omega) h.symm
  · rcases List.mem_cons.mp h with h | h
    · exact hb (n % 10) (by omega) h.symm
    · cases h

theorem not_mem_tagName (b : Char) (hb : ∀ k, k < 10 → Nat.digitChar k ≠ b)
    (h1 : b ≠ '-') (h2 : b ≠ ':') (h3 : b ∉ ("replica:" : String).data) (t : DT) :
    b ∉ ("replica:" ++ strftimeTag t).data := by
  intro hmem
  rw [String.data_append] at hmem
  rcases List.mem_append.mp hmem with h | h
  · exact h3 h
  · have hd : (strftimeTag t).data =
        pad4 t.year ++ '-' :: (pad2 t.month ++ '-' :: (pad2 t.day ++ '-' ::
          (pad2 t.hour ++ ':' :: pad2 t.minute))) := rfl
    rw [hd] at h
    rcases List.mem_append.mp h with h | h
    · rcases List.mem_append.mp h with h | h
      · exact pad2_no_bad _ b hb h
      · exact pad2_no_bad _ b hb h
    · rcases List.mem_cons.mp h with h | h
      · exact h1 h
      · rcases List.mem_append.mp h with h | h
        · exact pad2_no_bad _ b hb h
        · rcases List.mem_cons.mp h with h | h
          · exact h1 h
          · rcases List.mem_append.mp h with h | h
            · exact pad2_no_bad _ b hb h
            · rcases List.mem_cons.mp h with h | h
              · exact h1 h
              · rcases List.mem_append.mp h with h | h
                · exact pad2_no_bad _ b hb h
                · rcases List.mem_cons.mp h with h | h
                  · exact h2 h
                  · exact pad2_no_bad _ b hb h

theorem cleanName_newName (t : DT) : CleanName ("replica:" ++ strftimeTag t) :=
  ⟨not_mem_tagName '@' (by decide) (by decide) (by decide) (by decide) t,
   not_mem_tagName '\t' (by decide) (by decide) (by decide) (by decide) t,
   not_mem_tagName '\n' (by decide) (by decide) (by decide) (by decide) t⟩

theorem decideMode_divergence_iff (snaps dstsnaps : List String) :
    decideMode snaps dstsnaps = .divergence ↔
      (dstsnaps ≠ [] ∧ dstsnaps.getLastD "" ∉ snaps) := by
  unfold decideMode
  by_cases hc : dstsnaps ≠ [] ∧ dstsnaps.getLastD "" ∉ snaps
  · rw [if_pos hc]
    exact iff_of_true rfl hc
  · rw [if_neg hc]
    constructor
    · intro h
      by_cases h1 : snaps.length = 1
      · rw [if_pos h1] at h
        exact Decision.noConfusion h
      · rw [if_neg h1] at h
        by_cases h2 : dstsnaps = []
        · rw [if_pos h2] at h
          exact Decision.noConfusion h
        · rw [if_neg h2] at h
          exact Decision.noConfusion h
    · intro h
      exact absurd h hc

theorem mainBody_success
    (src dst : String) (now : DT) (w : World) (sch : Sched)
    (hg1 : sch.getSrc = 0) (hs1 : sch.setSrcDisable = 0)
    (hg2 : sch.getDst = 0) (hs2 : sch.setDstDisable = 0)
    (hmk : sch.snapCreate = 0) (hl1 : sch.listSrc = 0) (hl2 : sch.listDst = 0)
    (hd1 : ∀ c ∈ sch.destroySrcCodes, c = 0) (hl3 : sch.listDst2 = 0)
    (hd2 : ∀ c ∈ sch.destroyDstCodes, c = 0)
    (hr1 : sch.setDstRestore = 0) (hr2 : sch.setSrcRestore = 0)
    (hcs : CleanName src) (hcd : CleanName dst)
    (hns : ∀ n ∈ w.srcSnaps, CleanName n) (hnd : ∀ n ∈ w.dstSnaps, CleanName n)
    (hna : ∀ n ∈ sch.dstAfter, CleanName n)
    (hinv1 : listingOf src (w.srcSnaps ++ ["replica:" ++ strftimeTag now]) ≠ [])
    (hnodiv : ¬(listingOf dst w.dstSnaps ≠ [] ∧
      (listingOf dst w.dstSnaps).getLastD "" ∉
        listingOf src (w.srcSnaps ++ ["replica:" ++ strftimeTag now])))
    (hinv2 : listingOf dst sch.dstAfter ≠ []) :
    ∃ sends,
      mainBody src dst now ⟨w, [], []⟩ sch = .next () ⟨
        ⟨some (restoredValue w.srcAuto), some (restoredValue w.dstAuto),
          ((listingOf src (w.srcSnaps ++ ["replica:" ++ strftimeTag now])).take
              ((listingOf src (w.srcSnaps ++ ["replica:" ++ strftimeTag now])).length - 2)).foldl
            (fun ns t => ns.erase t) (w.srcSnaps ++ ["replica:" ++ strftimeTag now]),
          ((listingOf dst sch.dstAfter).take ((listingOf dst sch.dstAfter).length - 2)).foldl
            (fun ns t => ns.erase t) sch.dstAfter⟩,
        [], sends⟩ := by
  have hns1 : ∀ n ∈ w.srcSnaps ++ ["replica:" ++ strftimeTag now], CleanName n := by
    intro n hn
    rcases List.mem_append.mp hn with h | h
    · exact hns n h
    · rw [List.mem_singleton] at h
      rw [h]
      exact cleanName_newName now
  have e1 := snapshots_render src (w.srcSnaps ++ ["replica:" ++ strftimeTag now]) hcs hns1
  have e2 := snapshots_render dst w.dstSnaps hcd hnd
  have e3 := snapshots_render dst sch.dstAfter hcd hna
  have hlen1 : ¬((listingOf src (w.srcSnaps ++ ["replica:" ++ strftimeTag now])).length = 0) := by
    simpa [List.length_eq_zero] using hinv1
  have hlen2 : ¬((listingOf dst sch.dstAfter).length = 0) := by
    simpa [List.length_eq_zero] using hinv2
  have p1 := pruneLoop_all_zero
    ((listingOf src (w.srcSnaps ++ ["replica:" ++ strftimeTag now])).take
      ((listingOf src (w.srcSnaps ++ ["replica:" ++ strftimeTag now])).length - 2))
    sch.destroySrcCodes (w.srcSnaps ++ ["replica:" ++ strftimeTag now]) hd1
  have p2 := pruneLoop_all_zero
    ((listingOf dst sch.dstAfter).take ((listingOf dst sch.dstAfter).length - 2))
    sch.destroyDstCodes sch.dstAfter hd2
  have hdmne : ¬(decideMode (listingOf src (w.srcSnaps ++ ["replica:" ++ strftimeTag now]))
      (listingOf dst w.dstSnaps) = .divergence) :=
    fun h => hnodiv ((decideMode_divergence_iff _ _).mp h)
  cases hdm : decideMode (listingOf src (w.srcSnaps ++ ["replica:" ++ strftimeTag now]))
      (listingOf dst w.dstSnaps) with
  | divergence => exact absurd hdm hdmne
  | full tag =>
    refine ⟨[.full src dst tag], ?_⟩
    simp only [mainBody, sendStage, hg1, hs1, hg2, hs2, hmk, hl1, hl2, hl3, hr1, hr2,
      disableauto_zero, restoreauto_zero, mksnapshot_zero, e1, e2, e3, hdm,
      sendsnapshot_none, sendincremental_none, p1, p2]
    simp [hlen1, hlen2, restoredValue]
  | incremental t1 t2 =>
    refine ⟨[.incr src dst t1 t2], ?_⟩
    simp only [mainBody, sendStage, hg1, hs1, hg2, hs2, hmk, hl1, hl2, hl3, hr1, hr2,
      disableauto_zero, restoreauto_zero, mksnapshot_zero, e1, e2, e3, hdm,
      sendsnapshot_none, sendincremental_none, p1, p2]
    simp [hlen1, hlen2, restoredValue]

/-! ## Order facts for the Python string order -/

theorem pyLtCL_irrefl (l : List Char) : pyLtCL l l = false := by
  induction l with
  | nil => rfl
  | cons c cs ih =>
    show (if c < c then true else if c = c then pyLtCL cs cs else false) = false
    rw [if_neg (lt_irrefl c), if_pos rfl, ih]

theorem pyLtCL_asymm (a b : List Char) (h : pyLtCL a b = true) : pyLtCL b a = false := by
  induction a generalizing b with
  | nil =>
    cases b with
    | nil => exact absurd h (by simp [pyLtCL])
    | cons d bs => rfl
  | cons c as ih =>
    cases b with
    | nil => exact absurd h (by simp [pyLtCL])
    | cons d bs =>
      show (if d < c then true else if d = c then pyLtCL bs as else false) = false
      have hstep : (if c < d then true else if c = d then pyLtCL as bs else false) = true := h
      by_cases hcd : c < d
      · have hne : d ≠ c := by
          intro he
          rw [he] at hcd
          exact lt_irrefl c hcd
        rw [if_neg (asymm hcd), if_neg hne]
      · rw [if_neg hcd] at hstep
        by_cases hce : c = d
        · subst hce
          rw [if_pos rfl] at hstep
          rw [if_neg (lt_irrefl c), if_pos rfl]
          exact ih bs hstep
        · rw [if_neg hce] at hstep
          exact absurd hstep (by simp)

theorem pyLtCL_trichotomy (a b : List Char) :
    pyLtCL a b = true ∨ a = b ∨ pyLtCL b a = true := by
  induction a generalizing b with
  | nil =>
    cases b with
    | nil => exact Or.inr (Or.inl rfl)
    | cons d bs => exact Or.inl rfl
  | cons c as ih =>
    cases b with
    | nil => exact Or.inr (Or.inr rfl)
    | cons d bs =>
      rcases lt_trichotomy c d with hcd | hcd | hcd
      · refine Or.inl ?_
        show (if c < d then true else _) = true
        rw [if_pos hcd]
      · subst hcd
        rcases ih bs with h | h | h
        · refine Or.inl ?_
          show (if c < c then true else if c = c then pyLtCL as bs else false) = true
          rw [if_neg (lt_irrefl c), if_pos rfl, h]
        · exact Or.inr (Or.inl (by rw [h]))
        · refine Or.inr (Or.inr ?_)
          show (if c < c then true else if c = c then pyLtCL bs as else false) = true
          rw [if_neg (lt_irrefl c), if_pos rfl, h]
      · refine Or.inr (Or.inr ?_)
        show (if d < c then true else _) = true
        rw [if_pos hcd]

theorem pyLtCL_trans (a b c : List Char) (h1 : pyLtCL a b = true) (h2 : pyLtCL b c = true) :
    pyLtCL a c = true := by
  induction a generalizing b c with
  | nil =>
    cases c with
    | nil =>
      cases b with
      | nil => exact h1
      | cons e bs => exact absurd h2 (by simp [pyLtCL])
    | cons f cs => rfl
  | cons x as ih =>
    cases b with
    | nil => exact absurd h1 (by simp [pyLtCL])
    | cons e bs =>
      cases c with
      | nil => exact absurd h2 (by simp [pyLtCL])
      | cons f cs =>
        have hs1 : (if x < e then true else if x = e then pyLtCL as bs else false) = true := h1
        have hs2 : (if e < f then true else if e = f then pyLtCL bs cs else false) = true := h2
        show (if x < f then true else if x = f then pyLtCL as cs else false) = true
        by_cases hxe : x < e
        · by_cases hef : e < f
          · rw [if_pos (lt_trans hxe hef)]
          · rw [if_neg hef] at hs2
            by_cases hef' : e = f
            · rw [if_pos (hef' ▸ hxe)]
            · rw [if_neg hef'] at hs2
              exact absurd hs2 (by simp)
        · rw [if_neg hxe] at hs1
          by_cases hxe' : x = e
          · subst hxe'
            rw [if_pos rfl] at hs1
            by_cases hxf : x < f
            · rw [if_pos hxf]
            · rw [if_neg hxf] at hs2 ⊢
              by_cases hxf' : x = f
              · subst hxf'
                rw [if_pos rfl] at hs2 ⊢
                exact ih bs cs hs1 hs2
              · rw [if_neg hxf'] at hs2
                exact absurd hs2 (by simp)
          · rw [if_neg hxe'] at hs1
            exact absurd hs1 (by simp)

theorem pyLe_total : ∀ a b : String, pyLe a b ∨ pyLe b a := by
  intro a b
  unfold pyLe
  by_cases h : pyLtCL b.data a.data = true
  · exact Or.inr (pyLtCL_asymm b.data a.data h)
  · exact Or.inl (by simpa using h)

theorem pyLe_trans' : ∀ a b c : String, pyLe a b → pyLe b c → pyLe a c := by
  intro a b c h1 h2
  unfold pyLe at h1 h2 ⊢
  by_contra hc
  have hca : pyLtCL c.data a.data = true := by simpa using hc
  rcases pyLtCL_trichotomy a.data b.data with h | h | h
  · have hcb : pyLtCL c.data b.data = true := pyLtCL_trans c.data a.data b.data hca h
    rw [hcb] at h2
    exact Bool.noConfusion h2
  · rw [h] at hca
    rw [hca] at h2
    exact Bool.noConfusion h2
  · rw [h] at h1
    exact Bool.noConfusion h1

theorem pyLe_antisymm' : ∀ a b : String, pyLe a b → pyLe b a → a = b := by
  intro a b h1 h2
  unfold pyLe at h1 h2
  rcases pyLtCL_trichotomy a.data b.data with h | h | h
  · rw [h] at h2
    exact absurd h2 Bool.noConfusion
  · exact String.ext h
  · rw [h] at h1
    exact absurd h1 Bool.noConfusion

theorem sortPy_sorted (l : List String) : List.Pairwise pyLe (sortPy l) := by
  haveI : IsTotal String pyLe := ⟨pyLe_total⟩
  haveI : IsTrans String pyLe := ⟨pyLe_trans'⟩
  exact List.sorted_insertionSort pyLe l

theorem sortPy_perm (l : List String) : (sortPy l).Perm l :=
  List.perm_insertionSort pyLe l

theorem sortPy_eq_of_perm (l1 l2 : List String) (h : l1.Perm l2) : sortPy l1 = sortPy l2 := by
  haveI : IsTotal String pyLe := ⟨pyLe_total⟩
  haveI : IsTrans String pyLe := ⟨pyLe_trans'⟩
  haveI : IsAntisymm String pyLe := ⟨pyLe_antisymm'⟩
  exact List.eq_of_perm_of_sorted (((sortPy_perm l1).trans h).trans (sortPy_perm l2).symm)
    (sortPy_sorted l1) (sortPy_sorted l2)

theorem sortPy_of_sorted (l : List String) (h : List.Pairwise pyLe l) : sortPy l = l := by
  haveI : IsAntisymm String pyLe := ⟨pyLe_antisymm'⟩
  exact List.eq_of_perm_of_sorted (sortPy_perm l) (sortPy_sorted l) h

/-! ## Erasing destroyed snapshots -/

theorem filter_erase_of_neg (q : String → Bool) (names : List String) (t : String)
    (ht : q t = false) :
    (names.erase t).filter q = names.filter q := by
  induction names with
  | nil => rfl
  | cons x xs ih =>
    by_cases hx : x = t
    · subst hx
      rw [List.erase_cons_head, List.filter_cons_of_neg (by simp [ht])]
    · rw [List.erase_cons_tail (by simp [hx]), List.filter_cons, List.filter_cons]
      by_cases hq : q x
      · simp [hq, ih]
      · simp only [Bool.not_eq_true] at hq
        simp [hq, ih]

theorem filter_erase_of_pos (q : String → Bool) (names : List String) (t : String)
    (ht : q t = true) :
    (names.erase t).filter q = (names.filter q).erase t := by
  induction names with
  | nil => rfl
  | cons x xs ih =>
    by_cases hx : x = t
    · subst hx
      rw [List.erase_cons_head, List.filter_cons_of_pos (by simp [ht]), List.erase_cons_head]
    · rw [List.erase_cons_tail (by simp [hx]), List.filter_cons, List.filter_cons]
      by_cases hq : q x
      · simp only [hq, if_pos]
        rw [List.erase_cons_tail (by simp [hx]), ih]
      · simp only [Bool.not_eq_true] at hq
        simp [hq, ih]

theorem foldl_erase_filter_neg (q : String → Bool) (tags names : List String)
    (hsub : ∀ t ∈ tags, q t = false) :
    (tags.foldl (fun ns t => ns.erase t) names).filter q = names.filter q := by
  induction tags generalizing names with
  | nil => rfl
  | cons t ts ih =>
    rw [List.foldl_cons, ih (names.erase t) (fun x hx => hsub x (List.mem_cons_of_mem t hx)),
      filter_erase_of_neg q names t (hsub t (by simp))]

theorem foldl_erase_filter_pos (q : String → Bool) (tags names : List String)
    (hsub : ∀ t ∈ tags, q t = true) :
    (tags.foldl (fun ns t => ns.erase t) names).filter q =
      tags.foldl (fun ns t => ns.erase t) (names.filter q) := by
  induction tags generalizing names with
  | nil => rfl
  | cons t ts ih =>
    rw [List.foldl_cons, List.foldl_cons,
      ih (names.erase t) (fun x hx => hsub x (List.mem_cons_of_mem t hx)),
      filter_erase_of_pos q names t (hsub t (by simp))]

theorem foldl_erase_perm (ts rest M : List String) (hperm : M.Perm (ts ++ rest))
    (hnd : (ts ++ rest).Nodup) :
    (ts.foldl (fun ns t => ns.erase t) M).Perm rest := by
  induction ts generalizing M with
  | nil => simpa using hperm
  | cons t ts' ih =>
    rw [List.foldl_cons]
    apply ih
    · have h1 : ((t :: ts') ++ rest).erase t = ts' ++ rest := by
        rw [List.cons_append, List.erase_cons_head]
      exact (hperm.erase t).trans (h1 ▸ List.Perm.refl _)
    · rw [List.cons_append] at hnd
      exact hnd.of_cons

theorem foldl_erase_sublist (tags names : List String) :
    (tags.foldl (fun ns t => ns.erase t) names).Sublist names := by
  induction tags generalizing names with
  | nil => exact List.Sublist.refl names
  | cons t ts ih =>
    rw [List.foldl_cons]
    exact (ih (names.erase t)).trans (List.erase_sublist t names)

/-! ## The pruning postcondition -/

theorem prune_post (fs : String) (names : List String) (hfs : CleanName fs)
    (hcl : ∀ n ∈ names, CleanName n) (hnd : names.Nodup)
    (h2 : 2 ≤ (listingOf fs names).length) :
    listingOf fs
        (((listingOf fs names).take ((listingOf fs names).length - 2)).foldl
          (fun ns t => ns.erase t) names) =
      (listingOf fs names).drop ((listingOf fs names).length - 2) ∧
    ((((listingOf fs names).take ((listingOf fs names).length - 2)).foldl
          (fun ns t => ns.erase t) names).filter
        (fun n => !(reSearch (render1 fs n).data)) =
      names.filter (fun n => !(reSearch (render1 fs n).data))) ∧
    ((listingOf fs names).drop ((listingOf fs names).length - 2)).length = 2 := by
  set p : String → Bool := fun n => reSearch (render1 fs n).data with hp
  set L := listingOf fs names with hL
  set k := L.length - 2 with hk
  set F := (L.take k).foldl (fun ns t => ns.erase t) names with hF
  have hLfilter : L = sortPy (names.filter p) := listingOf_eq_filter fs names hfs hcl
  have hLperm : (names.filter p).Perm L := by
    rw [hLfilter]
    exact (sortPy_perm (names.filter p)).symm
  have hLnd : L.Nodup := hLperm.nodup (hnd.filter p)
  have htake_sub : ∀ t ∈ L.take k, p t = true := by
    intro t ht
    have hmem : t ∈ L := List.mem_of_mem_take ht
    have hmf : t ∈ names.filter p := hLperm.mem_iff.mpr hmem
    exact (List.mem_filter.mp hmf).2
  have hFsub : F.Sublist names := foldl_erase_sublist (L.take k) names
  have hFclean : ∀ n ∈ F, CleanName n := fun n hn => hcl n (hFsub.subset hn)
  have hperm2 : (F.filter p).Perm (L.drop k) := by
    rw [hF, foldl_erase_filter_pos p (L.take k) names htake_sub]
    apply foldl_erase_perm (L.take k) (L.drop k) (names.filter p)
    · rw [List.take_append_drop]
      exact hLperm
    · rw [List.take_append_drop]
      exact hLnd
  have hdrop_sorted : List.Pairwise pyLe (L.drop k) := by
    have : List.Pairwise pyLe L := by
      rw [hLfilter]
      exact sortPy_sorted (names.filter p)
    exact this.sublist (List.drop_sublist k L)
  refine ⟨?_, ?_, ?_⟩
  · rw [listingOf_eq_filter fs F hfs hFclean]
    rw [sortPy_eq_of_perm (F.filter p) (L.drop k) hperm2]
    exact sortPy_of_sorted (L.drop k) hdrop_sorted
  · exact foldl_erase_filter_neg (fun n => !(p n)) (L.take k) names
      (fun t ht => by simp [htake_sub t ht])
  · rw [List.length_drop]
    omega

theorem cleanName_names_with_new (snaps : List String) (now : DT)
    (h : ∀ n ∈ snaps, CleanName n) :
    ∀ n ∈ snaps ++ ["replica:" ++ strftimeTag now], CleanName n := by
  intro n hn
  rcases List.mem_append.mp hn with hh | hh
  · exact h n hh
  · rw [List.mem_singleton] at hh
    rw [hh]
    exact cleanName_newName now

theorem mainRun_success (src dst : String) (args : List String) (now : DT) (w : World)
    (sch : Sched)
    (h0 : args.getD 0 "" = src) (h1 : args.getD 1 "" = dst) (hlen : 2 ≤ args.length)
    (hg1 : sch.getSrc = 0) (hs1 : sch.setSrcDisable = 0)
    (hg2 : sch.getDst = 0) (hs2 : sch.setDstDisable = 0)
    (hmk : sch.snapCreate = 0) (hl1 : sch.listSrc = 0) (hl2 : sch.listDst = 0)
    (hd1 : ∀ c ∈ sch.destroySrcCodes, c = 0) (hl3 : sch.listDst2 = 0)
    (hd2 : ∀ c ∈ sch.destroyDstCodes, c = 0)
    (hr1 : sch.setDstRestore = 0) (hr2 : sch.setSrcRestore = 0)
    (hcs : CleanName src) (hcd : CleanName dst)
    (hns : ∀ n ∈ w.srcSnaps, CleanName n) (hnd : ∀ n ∈ w.dstSnaps, CleanName n)
    (hna : ∀ n ∈ sch.dstAfter, CleanName n)
    (hinv1 : listingOf src (w.srcSnaps ++ ["replica:" ++ strftimeTag now]) ≠ [])
    (hnodiv : ¬(listingOf dst w.dstSnaps ≠ [] ∧
      (listingOf dst w.dstSnaps).getLastD "" ∉
        listingOf src (w.srcSnaps ++ ["replica:" ++ strftimeTag now])))
    (hinv2 : listingOf dst sch.dstAfter ≠ []) :
    ∃ sends,
      mainRun args now w sch = ⟨0,
        ⟨some (restoredValue w.srcAuto), some (restoredValue w.dstAuto),
          ((listingOf src (w.srcSnaps ++ ["replica:" ++ strftimeTag now])).take
              ((listingOf src (w.srcSnaps ++ ["replica:" ++ strftimeTag now])).length - 2)).foldl
            (fun ns t => ns.erase t) (w.srcSnaps ++ ["replica:" ++ strftimeTag now]),
          ((listingOf dst sch.dstAfter).take ((listingOf dst sch.dstAfter).length - 2)).foldl
            (fun ns t => ns.erase t) sch.dstAfter⟩,
        [], sends⟩ := by
  obtain ⟨sends, hb⟩ := mainBody_success src dst now w sch hg1 hs1 hg2 hs2 hmk hl1 hl2 hd1
    hl3 hd2 hr1 hr2 hcs hcd hns hnd hna hinv1 hnodiv hinv2
  refine ⟨sends, ?_⟩
  have hnl : ¬(args.length < 2) := by omega
  simp only [mainRun, if_neg hnl, h0, h1, hb]

/-! ## The repr-mangled restore value -/

theorem pyByteEscape_len (sq : Bool) (c : Char) : 1 ≤ (pyByteEscape sq c).length := by
  unfold pyByteEscape
  repeat' split
  all_goals simp

theorem foldr_escape_len (sq : Bool) (l tail : List Char) :
    l.length + tail.length ≤
      (l.foldr (fun c acc => pyByteEscape sq c ++ acc) tail).length := by
  induction l with
  | nil => simp
  | cons c cs ih =>
    simp only [List.foldr_cons, List.length_append, List.length_cons]
    have h1 := pyByteEscape_len sq c
    omega

theorem pyBytesReprL_len (l : List Char) : l.length + 3 ≤ (pyBytesReprL l).length := by
  unfold pyBytesReprL
  split
  · have h1 := foldr_escape_len false l [dquote]
    simp only [List.length_cons, List.length_singleton] at h1 ⊢
    omega
  · have h1 := foldr_escape_len true l [squote]
    simp only [List.length_cons, List.length_singleton] at h1 ⊢
    omega

/-- The value the successful restore writes never equals the original
property value: the repr of the capture is at least four characters longer
than the value itself. -/
theorem restoredValue_ne (v : String) : restoredValue (some v) ≠ v := by
  intro h
  have hlen := pyBytesReprL_len (v.data ++ ['\n'])
  have hdata : pyBytesReprL (v.data ++ ['\n']) = v.data := congrArg String.data h
  rw [hdata] at hlen
  simp only [List.length_append, List.length_cons, List.length_nil] at hlen
  omega

/-- The written property state never equals the original property state:
for an originally-unset property something is written, and for an original
value the written string differs from it. -/
theorem some_restoredValue_ne (p : Option String) : some (restoredValue p) ≠ p := by
  cases p with
  | none => simp
  | some v => simpa using restoredValue_ne v

/-! ## C1 -/

/-- C1: counterexample to "the auto-snapshot property is restored on every
outcome".  A session whose destination listing fails (exit code 2) after
both properties have been disabled exits with status 1 leaving BOTH
properties at `"false"` — the `restoreauto` calls sit at the end of the
`try` block with no `finally`, so no failure path restores anything. -/
theorem c1_counterexample :
    (mainRun ["tank", "back"] ⟨2024, 5, 6, 7, 8⟩ ⟨some "true", some "true", [], []⟩
      ⟨0, 0, 0, 0, 0, 0, 2, 0, 0, [], [], 0, [], 0, 0⟩).exitCode = 1 ∧
    (mainRun ["tank", "back"] ⟨2024, 5, 6, 7, 8⟩ ⟨some "true", some "true", [], []⟩
      ⟨0, 0, 0, 0, 0, 0, 2, 0, 0, [], [], 0, [], 0, 0⟩).world.srcAuto = some "false" ∧
    (mainRun ["tank", "back"] ⟨2024, 5, 6, 7, 8⟩ ⟨some "true", some "true", [], []⟩
      ⟨0, 0, 0, 0, 0, 0, 2, 0, 0, [], [], 0, [], 0, 0⟩).world.dstAuto = some "false" := by
  decide

/-- C1 (amended): the auto-snapshot property is never restored to its
pre-session value.  On every failure path the process exits without
restoring, leaving the property disabled (the counterexample); and even on
the fully successful path (every external command exiting 0, no
divergence, both inventories non-empty) the restore write stores the repr
of the raw captured stdout bytes — value, trailing newline, quoting and
escapes included — which provably differs from the original value of both
filesystems. -/
theorem c1_restore_on_success (src dst : String) (args : List String) (now : DT) (w : World)
    (sch : Sched)
    (h0 : args.getD 0 "" = src) (h1 : args.getD 1 "" = dst) (hlen : 2 ≤ args.length)
    (hg1 : sch.getSrc = 0) (hs1 : sch.setSrcDisable = 0)
    (hg2 : sch.getDst = 0) (hs2 : sch.setDstDisable = 0)
    (hmk : sch.snapCreate = 0) (hl1 : sch.listSrc = 0) (hl2 : sch.listDst = 0)
    (hd1 : ∀ c ∈ sch.destroySrcCodes, c = 0) (hl3 : sch.listDst2 = 0)
    (hd2 : ∀ c ∈ sch.destroyDstCodes, c = 0)
    (hr1 : sch.setDstRestore = 0) (hr2 : sch.setSrcRestore = 0)
    (hcs : CleanName src) (hcd : CleanName dst)
    (hns : ∀ n ∈ w.srcSnaps, CleanName n) (hnd : ∀ n ∈ w.dstSnaps, CleanName n)
    (hna : ∀ n ∈ sch.dstAfter, CleanName n)
    (hinv1 : listingOf src (w.srcSnaps ++ ["replica:" ++ strftimeTag now]) ≠ [])
    (hnodiv : ¬(listingOf dst w.dstSnaps ≠ [] ∧
      (listingOf dst w.dstSnaps).getLastD "" ∉
        listingOf src (w.srcSnaps ++ ["replica:" ++ strftimeTag now])))
    (hinv2 : listingOf dst sch.dstAfter ≠ []) :
    (mainRun args now w sch).exitCode = 0 ∧
    (mainRun args now w sch).world.srcAuto = some (restoredValue w.srcAuto) ∧
    (mainRun args now w sch).world.dstAuto = some (restoredValue w.dstAuto) ∧
    (mainRun args now w sch).world.srcAuto ≠ w.srcAuto ∧
    (mainRun args now w sch).world.dstAuto ≠ w.dstAuto := by
  obtain ⟨sends, h⟩ := mainRun_success src dst args now w sch h0 h1 hlen hg1 hs1 hg2 hs2 hmk
    hl1 hl2 hd1 hl3 hd2 hr1 hr2 hcs hcd hns hnd hna hinv1 hnodiv hinv2
  rw [h]
  exact ⟨rfl, rfl, rfl, some_restoredValue_ne w.srcAuto, some_restoredValue_ne w.dstAuto⟩

theorem c1_restore_on_success_witness :
    (mainRun ["tank", "back"] ⟨2024, 5, 6, 7, 8⟩
        ⟨some "true", some "false", ["replica:2024-01-01-00:00"], ["replica:2024-01-01-00:00"]⟩
        ⟨0, 0, 0, 0, 0, 0, 0, 0, 0, ["replica:2024-01-01-00:00", "replica:2024-05-06-07:08"],
          [], 0, [], 0, 0⟩).exitCode = 0 ∧
    (mainRun ["tank", "back"] ⟨2024, 5, 6, 7, 8⟩
        ⟨some "true", some "false", ["replica:2024-01-01-00:00"], ["replica:2024-01-01-00:00"]⟩
        ⟨0, 0, 0, 0, 0, 0, 0, 0, 0, ["replica:2024-01-01-00:00", "replica:2024-05-06-07:08"],
          [], 0, [], 0, 0⟩).world.srcAuto = some (restoredValue (some "true")) ∧
    (mainRun ["tank", "back"] ⟨2024, 5, 6, 7, 8⟩
        ⟨some "true", some "false", ["replica:2024-01-01-00:00"], ["replica:2024-01-01-00:00"]⟩
        ⟨0, 0, 0, 0, 0, 0, 0, 0, 0, ["replica:2024-01-01-00:00", "replica:2024-05-06-07:08"],
          [], 0, [], 0, 0⟩).world.dstAuto = some (restoredValue (some "false")) ∧
    (mainRun ["tank", "back"] ⟨2024, 5, 6, 7, 8⟩
        ⟨some "true", some "false", ["replica:2024-01-01-00:00"], ["replica:2024-01-01-00:00"]⟩
        ⟨0, 0, 0, 0, 0, 0, 0, 0, 0, ["replica:2024-01-01-00:00", "replica:2024-05-06-07:08"],
          [], 0, [], 0, 0⟩).world.srcAuto ≠ some "true" ∧
    (mainRun ["tank", "back"] ⟨2024, 5, 6, 7, 8⟩
        ⟨some "true", some "false", ["replica:2024-01-01-00:00"], ["replica:2024-01-01-00:00"]⟩
        ⟨0, 0, 0, 0, 0, 0, 0, 0, 0, ["replica:2024-01-01-00:00", "replica:2024-05-06-07:08"],
          [], 0, [], 0, 0⟩).world.dstAuto ≠ some "false" :=
  c1_restore_on_success "tank" "back" ["tank", "back"] ⟨2024, 5, 6, 7, 8⟩
    ⟨some "true", some "false", ["replica:2024-01-01-00:00"], ["replica:2024-01-01-00:00"]⟩
    ⟨0, 0, 0, 0, 0, 0, 0, 0, 0, ["replica:2024-01-01-00:00", "replica:2024-05-06-07:08"],
      [], 0, [], 0, 0⟩
    rfl rfl (by decide) rfl rfl rfl rfl rfl rfl rfl (by decide) rfl (by decide) rfl rfl
    (by decide) (by decide) (by decide) (by decide) (by decide)
    (by decide) (by decide) (by decide)

/-! ## C4 -/

/-- C4: counterexample to "if the original value was unset, no restoration
write is performed and the property remains unset [and] a concrete boolean
original value is set back exactly".  A fully successful session starting
with the source property unset and the destination property `true` ends
with both halves violated: the source property is SET — to the
six-character repr of the captured bytes for the `-` placeholder line —
and the destination property holds the nine-character repr of its capture
rather than `true`. -/
theorem c4_counterexample :
    (mainRun ["tank", "back"] ⟨2024, 5, 6, 7, 8⟩
      ⟨none, some "true", ["replica:2024-01-01-00:00"], ["replica:2024-01-01-00:00"]⟩
      ⟨0, 0, 0, 0, 0, 0, 0, 0, 0, ["replica:2024-01-01-00:00", "replica:2024-05-06-07:08"],
        [], 0, [], 0, 0⟩).exitCode = 0 ∧
    (mainRun ["tank", "back"] ⟨2024, 5, 6, 7, 8⟩
      ⟨none, some "true", ["replica:2024-01-01-00:00"], ["replica:2024-01-01-00:00"]⟩
      ⟨0, 0, 0, 0, 0, 0, 0, 0, 0, ["replica:2024-01-01-00:00", "replica:2024-05-06-07:08"],
        [], 0, [], 0, 0⟩).world.srcAuto = some ⟨['b', squote, '-', '\\', 'n', squote]⟩ ∧
    (mainRun ["tank", "back"] ⟨2024, 5, 6, 7, 8⟩
      ⟨none, some "true", ["replica:2024-01-01-00:00"], ["replica:2024-01-01-00:00"]⟩
      ⟨0, 0, 0, 0, 0, 0, 0, 0, 0, ["replica:2024-01-01-00:00", "replica:2024-05-06-07:08"],
        [], 0, [], 0, 0⟩).world.srcAuto ≠ none ∧
    (mainRun ["tank", "back"] ⟨2024, 5, 6, 7, 8⟩
      ⟨none, some "true", ["replica:2024-01-01-00:00"], ["replica:2024-01-01-00:00"]⟩
      ⟨0, 0, 0, 0, 0, 0, 0, 0, 0, ["replica:2024-01-01-00:00", "replica:2024-05-06-07:08"],
        [], 0, [], 0, 0⟩).world.dstAuto =
      some ⟨['b', squote, 't', 'r', 'u', 'e', '\\', 'n', squote]⟩ ∧
    (mainRun ["tank", "back"] ⟨2024, 5, 6, 7, 8⟩
      ⟨none, some "true", ["replica:2024-01-01-00:00"], ["replica:2024-01-01-00:00"]⟩
      ⟨0, 0, 0, 0, 0, 0, 0, 0, 0, ["replica:2024-01-01-00:00", "replica:2024-05-06-07:08"],
        [], 0, [], 0, 0⟩).world.dstAuto ≠ some "true" := by
  decide

/-- C4 (amended): at the end of a fully successful session the restoration
write is performed unconditionally — an originally-unset property does not
remain unset — and the value written is the repr of the raw captured
stdout bytes: the repr of the `-` placeholder line when the property was
unset, and the repr of `v` plus a trailing newline (which differs from
`v`) when the original value was `v`. -/
theorem c4_restore_unconditional (src dst : String) (args : List String) (now : DT) (w : World)
    (sch : Sched)
    (h0 : args.getD 0 "" = src) (h1 : args.getD 1 "" = dst) (hlen : 2 ≤ args.length)
    (hg1 : sch.getSrc = 0) (hs1 : sch.setSrcDisable = 0)
    (hg2 : sch.getDst = 0) (hs2 : sch.setDstDisable = 0)
    (hmk : sch.snapCreate = 0) (hl1 : sch.listSrc = 0) (hl2 : sch.listDst = 0)
    (hd1 : ∀ c ∈ sch.destroySrcCodes, c = 0) (hl3 : sch.listDst2 = 0)
    (hd2 : ∀ c ∈ sch.destroyDstCodes, c = 0)
    (hr1 : sch.setDstRestore = 0) (hr2 : sch.setSrcRestore = 0)
    (hcs : CleanName src) (hcd : CleanName dst)
    (hns : ∀ n ∈ w.srcSnaps, CleanName n) (hnd : ∀ n ∈ w.dstSnaps, CleanName n)
    (hna : ∀ n ∈ sch.dstAfter, CleanName n)
    (hinv1 : listingOf src (w.srcSnaps ++ ["replica:" ++ strftimeTag now]) ≠ [])
    (hnodiv : ¬(listingOf dst w.dstSnaps ≠ [] ∧
      (listingOf dst w.dstSnaps).getLastD "" ∉
        listingOf src (w.srcSnaps ++ ["replica:" ++ strftimeTag now])))
    (hinv2 : listingOf dst sch.dstAfter ≠ []) :
    ((w.srcAuto = none →
        (mainRun args now w sch).world.srcAuto = some (restoredValue none) ∧
        (mainRun args now w sch).world.srcAuto ≠ none) ∧
     (∀ v, w.srcAuto = some v →
        (mainRun args now w sch).world.srcAuto = some (restoredValue (some v)) ∧
        (mainRun args now w sch).world.srcAuto ≠ some v)) ∧
    ((w.dstAuto = none →
        (mainRun args now w sch).world.dstAuto = some (restoredValue none) ∧
        (mainRun args now w sch).world.dstAuto ≠ none) ∧
     (∀ v, w.dstAuto = some v →
        (mainRun args now w sch).world.dstAuto = some (restoredValue (some v)) ∧
        (mainRun args now w sch).world.dstAuto ≠ some v)) := by
  obtain ⟨sends, h⟩ := mainRun_success src dst args now w sch h0 h1 hlen hg1 hs1 hg2 hs2 hmk
    hl1 hl2 hd1 hl3 hd2 hr1 hr2 hcs hcd hns hnd hna hinv1 hnodiv hinv2
  rw [h]
  refine ⟨⟨?_, ?_⟩, ?_, ?_⟩
  · intro hu
    constructor
    · show some (restoredValue w.srcAuto) = some (restoredValue none)
      rw [hu]
    · show some (restoredValue w.srcAuto) ≠ none
      simp
  · intro v hv
    constructor
    · show some (restoredValue w.srcAuto) = some (restoredValue (some v))
      rw [hv]
    · show some (restoredValue w.srcAuto) ≠ some v
      rw [hv]
      exact some_restoredValue_ne (some v)
  · intro hu
    constructor
    · show some (restoredValue w.dstAuto) = some (restoredValue none)
      rw [hu]
    · show some (restoredValue w.dstAuto) ≠ none
      simp
  · intro v hv
    constructor
    · show some (restoredValue w.dstAuto) = some (restoredValue (some v))
      rw [hv]
    · show some (restoredValue w.dstAuto) ≠ some v
      rw [hv]
      exact some_restoredValue_ne (some v)

theorem c4_restore_unconditional_witness :
    ((none = (none : Option String) →
      (mainRun ["tank", "back"] ⟨2024, 5, 6, 7, 8⟩
        ⟨none, some "true", ["replica:2024-01-01-00:00"], ["replica:2024-01-01-00:00"]⟩
        ⟨0, 0, 0, 0, 0, 0, 0, 0, 0, ["replica:2024-01-01-00:00", "replica:2024-05-06-07:08"],
          [], 0, [], 0, 0⟩).world.srcAuto = some (restoredValue none) ∧
      (mainRun ["tank", "back"] ⟨2024, 5, 6, 7, 8⟩
        ⟨none, some "true", ["replica:2024-01-01-00:00"], ["replica:2024-01-01-00:00"]⟩
        ⟨0, 0, 0, 0, 0, 0, 0, 0, 0, ["replica:2024-01-01-00:00", "replica:2024-05-06-07:08"],
          [], 0, [], 0, 0⟩).world.srcAuto ≠ none) ∧
     (∀ v, (none : Option String) = some v →
      (mainRun ["tank", "back"] ⟨2024, 5, 6, 7, 8⟩
        ⟨none, some "true", ["replica:2024-01-01-00:00"], ["replica:2024-01-01-00:00"]⟩
        ⟨0, 0, 0, 0, 0, 0, 0, 0, 0, ["replica:2024-01-01-00:00", "replica:2024-05-06-07:08"],
          [], 0, [], 0, 0⟩).world.srcAuto = some (restoredValue (some v)) ∧
      (mainRun ["tank", "back"] ⟨2024, 5, 6, 7, 8⟩
        ⟨none, some "true", ["replica:2024-01-01-00:00"], ["replica:2024-01-01-00:00"]⟩
        ⟨0, 0, 0, 0, 0, 0, 0, 0, 0, ["replica:2024-01-01-00:00", "replica:2024-05-06-07:08"],
          [], 0, [], 0, 0⟩).world.srcAuto ≠ some v)) ∧
    ((some "true" = (none : Option String) →
      (mainRun ["tank", "back"] ⟨2024, 5, 6, 7, 8⟩
        ⟨none, some "true", ["replica:2024-01-01-00:00"], ["replica:2024-01-01-00:00"]⟩
        ⟨0, 0, 0, 0, 0, 0, 0, 0, 0, ["replica:2024-01-01-00:00", "replica:2024-05-06-07:08"],
          [], 0, [], 0, 0⟩).world.dstAuto = some (restoredValue none) ∧
      (mainRun ["tank", "back"] ⟨2024, 5, 6, 7, 8⟩
        ⟨none, some "true", ["replica:2024-01-01-00:00"], ["replica:2024-01-01-00:00"]⟩
        ⟨0, 0, 0, 0, 0, 0, 0, 0, 0, ["replica:2024-01-01-00:00", "replica:2024-05-06-07:08"],
          [], 0, [], 0, 0⟩).world.dstAuto ≠ none) ∧
     (∀ v, (some "true" : Option String) = some v →
      (mainRun ["tank", "back"] ⟨2024, 5, 6, 7, 8⟩
        ⟨none, some "true", ["replica:2024-01-01-00:00"], ["replica:2024-01-01-00:00"]⟩
        ⟨0, 0, 0, 0, 0, 0, 0, 0, 0, ["replica:2024-01-01-00:00", "replica:2024-05-06-07:08"],
          [], 0, [], 0, 0⟩).world.dstAuto = some (restoredValue (some v)) ∧
      (mainRun ["tank", "back"] ⟨2024, 5, 6, 7, 8⟩
        ⟨none, some "true", ["replica:2024-01-01-00:00"], ["replica:2024-01-01-00:00"]⟩
        ⟨0, 0, 0, 0, 0, 0, 0, 0, 0, ["replica:2024-01-01-00:00", "replica:2024-05-06-07:08"],
          [], 0, [], 0, 0⟩).world.dstAuto ≠ some v)) :=
  c4_restore_unconditional "tank" "back" ["tank", "back"] ⟨2024, 5, 6, 7, 8⟩
    ⟨none, some "true", ["replica:2024-01-01-00:00"], ["replica:2024-01-01-00:00"]⟩
    ⟨0, 0, 0, 0, 0, 0, 0, 0, 0, ["replica:2024-01-01-00:00", "replica:2024-05-06-07:08"],
      [], 0, [], 0, 0⟩
    rfl rfl (by decide) rfl rfl rfl rfl rfl rfl rfl (by decide) rfl (by decide) rfl rfl
    (by decide) (by decide) (by decide) (by decide) (by decide)
    (by decide) (by decide) (by decide)

/-! ## C5 -/

/-- C5: after the pruning of a fully successful session, the managed
inventory of the source equals exactly the two most recent entries (the
last two, by the inventory's lexicographic ordering) of its pre-prune
inventory — every older managed snapshot having been destroyed — while
unmanaged snapshots are untouched; the same holds for the destination's
post-transfer inventory.  (The source's pre-prune inventory is the
listing taken after the new snapshot was created; the destination's is
the fresh listing taken after the transfer.) -/
theorem c5_prune_keeps_two (src dst : String) (args : List String) (now : DT) (w : World)
    (sch : Sched)
    (h0 : args.getD 0 "" = src) (h1 : args.getD 1 "" = dst) (hlen : 2 ≤ args.length)
    (hg1 : sch.getSrc = 0) (hs1 : sch.setSrcDisable = 0)
    (hg2 : sch.getDst = 0) (hs2 : sch.setDstDisable = 0)
    (hmk : sch.snapCreate = 0) (hl1 : sch.listSrc = 0) (hl2 : sch.listDst = 0)
    (hd1 : ∀ c ∈ sch.destroySrcCodes, c = 0) (hl3 : sch.listDst2 = 0)
    (hd2 : ∀ c ∈ sch.destroyDstCodes, c = 0)
    (hr1 : sch.setDstRestore = 0) (hr2 : sch.setSrcRestore = 0)
    (hcs : CleanName src) (hcd : CleanName dst)
    (hns : ∀ n ∈ w.srcSnaps, CleanName n) (hnd : ∀ n ∈ w.dstSnaps, CleanName n)
    (hna : ∀ n ∈ sch.dstAfter, CleanName n)
    (hinv1 : listingOf src (w.srcSnaps ++ ["replica:" ++ strftimeTag now]) ≠ [])
    (hnodiv : ¬(listingOf dst w.dstSnaps ≠ [] ∧
      (listingOf dst w.dstSnaps).getLastD "" ∉
        listingOf src (w.srcSnaps ++ ["replica:" ++ strftimeTag now])))
    (hinv2 : listingOf dst sch.dstAfter ≠ [])
    (hnd1 : (w.srcSnaps ++ ["replica:" ++ strftimeTag now]).Nodup)
    (hnd2 : sch.dstAfter.Nodup)
    (h2src : 2 ≤ (listingOf src (w.srcSnaps ++ ["replica:" ++ strftimeTag now])).length)
    (h2dst : 2 ≤ (listingOf dst sch.dstAfter).length) :
    listingOf src (mainRun args now w sch).world.srcSnaps =
      (listingOf src (w.srcSnaps ++ ["replica:" ++ strftimeTag now])).drop
        ((listingOf src (w.srcSnaps ++ ["replica:" ++ strftimeTag now])).length - 2) ∧
    ((listingOf src (w.srcSnaps ++ ["replica:" ++ strftimeTag now])).drop
        ((listingOf src (w.srcSnaps ++ ["replica:" ++ strftimeTag now])).length - 2)).length = 2 ∧
    (mainRun args now w sch).world.srcSnaps.filter
        (fun n => !(reSearch (render1 src n).data)) =
      (w.srcSnaps ++ ["replica:" ++ strftimeTag now]).filter
        (fun n => !(reSearch (render1 src n).data)) ∧
    listingOf dst (mainRun args now w sch).world.dstSnaps =
      (listingOf dst sch.dstAfter).drop ((listingOf dst sch.dstAfter).length - 2) ∧
    ((listingOf dst sch.dstAfter).drop ((listingOf dst sch.dstAfter).length - 2)).length = 2 ∧
    (mainRun args now w sch).world.dstSnaps.filter
        (fun n => !(reSearch (render1 dst n).data)) =
      sch.dstAfter.filter (fun n => !(reSearch (render1 dst n).data)) := by
  obtain ⟨sends, h⟩ := mainRun_success src dst args now w sch h0 h1 hlen hg1 hs1 hg2 hs2 hmk
    hl1 hl2 hd1 hl3 hd2 hr1 hr2 hcs hcd hns hnd hna hinv1 hnodiv hinv2
  have hns1 : ∀ n ∈ w.srcSnaps ++ ["replica:" ++ strftimeTag now], CleanName n :=
    cleanName_names_with_new w.srcSnaps now hns
  have hsrc := prune_post src (w.srcSnaps ++ ["replica:" ++ strftimeTag now]) hcs hns1 hnd1 h2src
  have hdst := prune_post dst sch.dstAfter hcd hna hnd2 h2dst
  rw [h]
  exact ⟨hsrc.1, hsrc.2.2, hsrc.2.1, hdst.1, hdst.2.2, hdst.2.1⟩

theorem c5_prune_keeps_two_witness :
    listingOf "tank"
        (mainRun ["tank", "back"] ⟨2024, 5, 6, 7, 8⟩
          ⟨some "true", some "true",
            ["replica:2024-01-01-00:00", "replica:2024-02-01-00:00", "doc"],
            ["replica:2024-02-01-00:00"]⟩
          ⟨0, 0, 0, 0, 0, 0, 0, 0, 0,
            ["replica:2024-02-01-00:00", "replica:2024-05-06-07:08", "junk"],
            [], 0, [], 0, 0⟩).world.srcSnaps =
      (listingOf "tank"
          (["replica:2024-01-01-00:00", "replica:2024-02-01-00:00", "doc"] ++
            ["replica:" ++ strftimeTag ⟨2024, 5, 6, 7, 8⟩])).drop
        ((listingOf "tank"
            (["replica:2024-01-01-00:00", "replica:2024-02-01-00:00", "doc"] ++
              ["replica:" ++ strftimeTag ⟨2024, 5, 6, 7, 8⟩])).length - 2) ∧
    ((listingOf "tank"
        (["replica:2024-01-01-00:00", "replica:2024-02-01-00:00", "doc"] ++
          ["replica:" ++ strftimeTag ⟨2024, 5, 6, 7, 8⟩])).drop
      ((listingOf "tank"
          (["replica:2024-01-01-00:00", "replica:2024-02-01-00:00", "doc"] ++
            ["replica:" ++ strftimeTag ⟨2024, 5, 6, 7, 8⟩])).length - 2)).length = 2 ∧
    (mainRun ["tank", "back"] ⟨2024, 5, 6, 7, 8⟩
        ⟨some "true", some "true",
          ["replica:2024-01-01-00:00", "replica:2024-02-01-00:00", "doc"],
          ["replica:2024-02-01-00:00"]⟩
        ⟨0, 0, 0, 0, 0, 0, 0, 0, 0,
          ["replica:2024-02-01-00:00", "replica:2024-05-06-07:08", "junk"],
          [], 0, [], 0, 0⟩).world.srcSnaps.filter
        (fun n => !(reSearch (render1 "tank" n).data)) =
      (["replica:2024-01-01-00:00", "replica:2024-02-01-00:00", "doc"] ++
          ["replica:" ++ strftimeTag ⟨2024, 5, 6, 7, 8⟩]).filter
        (fun n => !(reSearch (render1 "tank" n).data)) ∧
    listingOf "back"
        (mainRun ["tank", "back"] ⟨2024, 5, 6, 7, 8⟩
          ⟨some "true", some "true",
            ["replica:2024-01-01-00:00", "replica:2024-02-01-00:00", "doc"],
            ["replica:2024-02-01-00:00"]⟩
          ⟨0, 0, 0, 0, 0, 0, 0, 0, 0,
            ["replica:2024-02-01-00:00", "replica:2024-05-06-07:08", "junk"],
            [], 0, [], 0, 0⟩).world.dstSnaps =
      (listingOf "back"
          ["replica:2024-02-01-00:00", "replica:2024-05-06-07:08", "junk"]).drop
        ((listingOf "back"
            ["replica:2024-02-01-00:00", "replica:2024-05-06-07:08", "junk"]).length - 2) ∧
    ((listingOf "back" ["replica:2024-02-01-00:00", "replica:2024-05-06-07:08", "junk"]).drop
      ((listingOf "back"
          ["replica:2024-02-01-00:00", "replica:2024-05-06-07:08", "junk"]).length - 2)).length
        = 2 ∧
    (mainRun ["tank", "back"] ⟨2024, 5, 6, 7, 8⟩
        ⟨some "true", some "true",
          ["replica:2024-01-01-00:00", "replica:2024-02-01-00:00", "doc"],
          ["replica:2024-02-01-00:00"]⟩
        ⟨0, 0, 0, 0, 0, 0, 0, 0, 0,
          ["replica:2024-02-01-00:00", "replica:2024-05-06-07:08", "junk"],
          [], 0, [], 0, 0⟩).world.dstSnaps.filter
        (fun n => !(reSearch (render1 "back" n).data)) =
      (["replica:2024-02-01-00:00", "replica:2024-05-06-07:08", "junk"]).filter
        (fun n => !(reSearch (render1 "back" n).data)) :=
  c5_prune_keeps_two "tank" "back" ["tank", "back"] ⟨2024, 5, 6, 7, 8⟩
    ⟨some "true", some "true",
      ["replica:2024-01-01-00:00", "replica:2024-02-01-00:00", "doc"],
      ["replica:2024-02-01-00:00"]⟩
    ⟨0, 0, 0, 0, 0, 0, 0, 0, 0,
      ["replica:2024-02-01-00:00", "replica:2024-05-06-07:08", "junk"],
      [], 0, [], 0, 0⟩
    rfl rfl (by decide) rfl rfl rfl rfl rfl rfl rfl (by decide) rfl (by decide) rfl rfl
    (by decide) (by decide) (by decide) (by decide) (by decide)
    (by decide) (by decide) (by decide) (by decide) (by decide) (by decide) (by decide)

/-! ## C6: possible exit codes -/

theorem disableauto_exitP_neg (cGet cSet : Int) (p : Option String) (c : Int) (m : String)
    (h : disableauto cGet cSet p = .exitP c m) : c < 0 := by
  unfold disableauto at h
  by_cases h1 : cGet ≠ 0
  · rw [if_pos h1] at h
    exact DARes.noConfusion h
  · rw [if_neg h1] at h
    by_cases h2 : cSet < 0
    · rw [if_pos h2] at h
      injection h with h3 h4
      omega
    · rw [if_neg h2] at h
      exact DARes.noConfusion h

theorem restoreauto_exitP_neg (cSet : Int) (saved : PyBytes) (p : Option String) (c : Int)
    (m : String) (h : restoreauto cSet saved p = .exitP c m) : c < 0 := by
  unfold restoreauto at h
  by_cases h2 : cSet < 0
  · rw [if_pos h2] at h
    injection h with h3 h4
    omega
  · rw [if_neg h2] at h
    exact RARes.noConfusion h

theorem mksnapshot_exitP_neg (cSet : Int) (now : DT) (names : List String) (c : Int)
    (m : String) (h : mksnapshot cSet now names = .exitP c m) : c < 0 := by
  unfold mksnapshot at h
  by_cases h2 : cSet < 0
  · rw [if_pos h2] at h
    injection h with h3 h4
    omega
  · rw [if_neg h2] at h
    exact MKRes.noConfusion h

theorem sendStage_exitP_one (src dst : String) (snaps dstsnaps : List String)
    (sE rE : Int) (dA : List String) (st : St) (c : Int) (st' : St)
    (h : sendStage src dst snaps dstsnaps sE rE dA st = .exitP c st') : c = 1 := by
  unfold sendStage at h
  cases hdm : decideMode snaps dstsnaps with
  | divergence =>
    rw [hdm] at h
    injection h with h1 h2
    exact h1.symm
  | full tag =>
    rw [hdm] at h
    rw [sendsnapshot_none sE rE] at h
    exact Step.noConfusion h
  | incremental t1 t2 =>
    rw [hdm] at h
    rw [sendincremental_none sE rE] at h
    exact Step.noConfusion h

theorem mainBody_cases (src dst : String) (now : DT) (st : St) (sch : Sched) :
    (∃ st', mainBody src dst now st sch = Step.next () st') ∨
    (∃ st', mainBody src dst now st sch = Step.exitP 1 st') ∨
    (∃ c st', c < 0 ∧ mainBody src dst now st sch = Step.exitP c st') ∨
    (∃ e st', mainBody src dst now st sch = Step.raiseE e st') := by
  unfold mainBody
  repeat' first
    | split
    | dsimp only []
  all_goals first
    | exact Or.inl ⟨_, rfl⟩
    | exact Or.inr (Or.inl ⟨_, rfl⟩)
    | exact Or.inr (Or.inr (Or.inr ⟨_, _, rfl⟩))
    | (rename_i heq
       exact Or.inr (Or.inr (Or.inl ⟨_, _, disableauto_exitP_neg _ _ _ _ _ heq, rfl⟩)))
    | (rename_i heq
       exact Or.inr (Or.inr (Or.inl ⟨_, _, restoreauto_exitP_neg _ _ _ _ _ heq, rfl⟩)))
    | (rename_i heq
       exact Or.inr (Or.inr (Or.inl ⟨_, _, mksnapshot_exitP_neg _ _ _ _ _ heq, rfl⟩)))
    | (rename_i heq
       exact Or.inr (Or.inl ⟨_, by rw [sendStage_exitP_one _ _ _ _ _ _ _ _ _ _ heq]⟩))

theorem mainRun_exit_codes (args : List String) (now : DT) (w : World) (sch : Sched) :
    (mainRun args now w sch).exitCode = 0 ∨ (mainRun args now w sch).exitCode = 1 ∨
      (mainRun args now w sch).exitCode < 0 := by
  by_cases hl : args.length < 2
  · left
    unfold mainRun
    rw [if_pos hl]
  · rcases mainBody_cases (args.getD 0 "") (args.getD 1 "") now ⟨w, [], []⟩ sch with
      ⟨st', h⟩ | ⟨st', h⟩ | ⟨c, st', hc, h⟩ | ⟨e, st', h⟩
    · left
      simp only [mainRun, if_neg hl, h]
    · right; left
      simp only [mainRun, if_neg hl, h]
    · right; right
      simp only [mainRun, if_neg hl, h]
      exact hc
    · right; left
      simp only [mainRun, if_neg hl, h]

/-- C6: counterexample to "the exit status equals the failing external
command's exit code when that code is available".  A session whose source
listing command fails with exit code 2 — a code the script has in hand
when it raises `OSError(EIO, "zfs list returned 2")` — exits with the
generic status 1, not 2. -/
theorem c6_counterexample :
    (mainRun ["tank", "back"] ⟨2024, 5, 6, 7, 8⟩ ⟨some "true", some "true", [], []⟩
      ⟨0, 0, 0, 0, 0, 2, 0, 0, 0, [], [], 0, [], 0, 0⟩).exitCode = 1 ∧
    ¬((mainRun ["tank", "back"] ⟨2024, 5, 6, 7, 8⟩ ⟨some "true", some "true", [], []⟩
      ⟨0, 0, 0, 0, 0, 2, 0, 0, 0, [], [], 0, [], 0, 0⟩).exitCode = 2) := by
  decide

/-- C6 (amended): the process exits 0 on a fully successful session (and on
the usage path); every failure exits with the generic status 1, except
that a signal-terminated `zfs set`/`zfs snapshot` child makes the script
call `sys.exit` with the negative signal value.  The failing command's
positive exit code is never propagated as the process status: for every
argument list, time, pool state and schedule the exit status is 0, 1 or
negative. -/
theorem c6_exit_status (src dst : String) (args : List String) (now : DT) (w : World)
    (sch : Sched)
    (h0 : args.getD 0 "" = src) (h1 : args.getD 1 "" = dst) (hlen : 2 ≤ args.length)
    (hg1 : sch.getSrc = 0) (hs1 : sch.setSrcDisable = 0)
    (hg2 : sch.getDst = 0) (hs2 : sch.setDstDisable = 0)
    (hmk : sch.snapCreate = 0) (hl1 : sch.listSrc = 0) (hl2 : sch.listDst = 0)
    (hd1 : ∀ c ∈ sch.destroySrcCodes, c = 0) (hl3 : sch.listDst2 = 0)
    (hd2 : ∀ c ∈ sch.destroyDstCodes, c = 0)
    (hr1 : sch.setDstRestore = 0) (hr2 : sch.setSrcRestore = 0)
    (hcs : CleanName src) (hcd : CleanName dst)
    (hns : ∀ n ∈ w.srcSnaps, CleanName n) (hnd : ∀ n ∈ w.dstSnaps, CleanName n)
    (hna : ∀ n ∈ sch.dstAfter, CleanName n)
    (hinv1 : listingOf src (w.srcSnaps ++ ["replica:" ++ strftimeTag now]) ≠ [])
    (hnodiv : ¬(listingOf dst w.dstSnaps ≠ [] ∧
      (listingOf dst w.dstSnaps).getLastD "" ∉
        listingOf src (w.srcSnaps ++ ["replica:" ++ strftimeTag now])))
    (hinv2 : listingOf dst sch.dstAfter ≠ []) :
    (mainRun args now w sch).exitCode = 0 ∧
    (∀ (args' : List String) (now' : DT) (w' : World) (sch' : Sched),
      (mainRun args' now' w' sch').exitCode = 0 ∨ (mainRun args' now' w' sch').exitCode = 1 ∨
        (mainRun args' now' w' sch').exitCode < 0) := by
  constructor
  · obtain ⟨sends, h⟩ := mainRun_success src dst args now w sch h0 h1 hlen hg1 hs1 hg2 hs2 hmk
      hl1 hl2 hd1 hl3 hd2 hr1 hr2 hcs hcd hns hnd hna hinv1 hnodiv hinv2
    rw [h]
  · exact fun args' now' w' sch' => mainRun_exit_codes args' now' w' sch'

theorem c6_exit_status_witness :
    (mainRun ["tank", "back"] ⟨2024, 5, 6, 7, 8⟩
        ⟨some "true", some "false", ["replica:2024-01-01-00:00"], ["replica:2024-01-01-00:00"]⟩
        ⟨0, 0, 0, 0, 0, 0, 0, 0, 0, ["replica:2024-01-01-00:00", "replica:2024-05-06-07:08"],
          [], 0, [], 0, 0⟩).exitCode = 0 ∧
    (∀ (args' : List String) (now' : DT) (w' : World) (sch' : Sched),
      (mainRun args' now' w' sch').exitCode = 0 ∨ (mainRun args' now' w' sch').exitCode = 1 ∨
        (mainRun args' now' w' sch').exitCode < 0) :=
  c6_exit_status "tank" "back" ["tank", "back"] ⟨2024, 5, 6, 7, 8⟩
    ⟨some "true", some "false", ["replica:2024-01-01-00:00"], ["replica:2024-01-01-00:00"]⟩
    ⟨0, 0, 0, 0, 0, 0, 0, 0, 0, ["replica:2024-01-01-00:00", "replica:2024-05-06-07:08"],
      [], 0, [], 0, 0⟩
    rfl rfl (by decide) rfl rfl rfl rfl rfl rfl rfl (by decide) rfl (by decide) rfl rfl
    (by decide) (by decide) (by decide) (by decide) (by decide)
    (by decide) (by decide) (by decide)
